import Mathlib

/-!
# Verification of DirectXMathExtension.h

A shallow embedding of the single-header library `DirectXMathExtension.h`,
which wraps the memory-layout types of DirectXMath (XMFLOAT2, ..., XMFLOAT4X4A)
in derived types (MXMFLOAT2, ..., MXMFLOAT4X4A) that add implicit conversion
and assignment operators forwarding to the library's XMLoad* / XMStore*
routines, plus one helper function `MXMMatrixAbs`.

Modelling choices:
* a 32-bit float is represented by its bit pattern, a `Nat` below `2 ^ 32`;
* `XMVECTOR` is four 32-bit lanes, `XMMATRIX` four rows of `XMVECTOR`;
* the DirectXMath load/store routines, which are external to the repository,
  are modelled from the DirectXMath sources (value-level behaviour of the
  scalar/NO-INTRIN path; the integer stores saturate as the SSE path does);
* the wrapper types and their members are translated member by member from
  `src/DirectXMathExtension.h`.
-/

set_option autoImplicit false
set_option linter.unusedVariables false
set_option maxRecDepth 4000

namespace DXME

/-! ### 32-bit float bit-pattern helpers (model of the external library's
scalar conversions) -/

/-- Bit pattern of the 32-bit float `1.0f`. -/
def f32one : Nat := 0x3F800000

/-- Floor of the base-2 logarithm for magnitudes below `2 ^ 33`, written as
a bounded fold so that it reduces inside the kernel. -/
def floorLog2 (a : Nat) : Nat :=
  (List.range 33).foldl (fun acc e => if 2 ^ e ≤ a then e else acc) 0

/-- Encode a natural magnitude as a 32-bit float bit pattern, rounding to
nearest with ties to even — the conversion `(float)x` performed by the
DirectXMath integer load routines. -/
def f32ofNat (a : Nat) : Nat :=
  if a = 0 then 0
  else
    let e := floorLog2 a
    if e ≤ 23 then
      (e + 127) * 2 ^ 23 + (a - 2 ^ e) * 2 ^ (23 - e)
    else
      let sh := e - 23
      let q := a / 2 ^ sh
      let r := a % 2 ^ sh
      let half := 2 ^ (sh - 1)
      let q2 := if half < r ∨ (r = half ∧ q % 2 = 1) then q + 1 else q
      if q2 = 2 ^ 24 then (e + 128) * 2 ^ 23
      else (e + 127) * 2 ^ 23 + (q2 - 2 ^ 23)

/-- Encode a signed 32-bit integer value as a 32-bit float bit pattern:
the conversion performed by `XMLoadSInt2/3/4`. -/
def f32ofInt32 (i : Int) : Nat :=
  if i < 0 then 2 ^ 31 + f32ofNat i.natAbs else f32ofNat i.natAbs

/-- Truncate a 32-bit float bit pattern to an integer (round toward zero). -/
def truncF32toInt (bits : Nat) : Int :=
  let s := bits / 2 ^ 31 % 2
  let expo := bits / 2 ^ 23 % 256
  let mant := bits % 2 ^ 23
  let mag : Nat :=
    if expo < 127 then 0
    else if expo ≤ 150 then (2 ^ 23 + mant) / 2 ^ (150 - expo)
    else (2 ^ 23 + mant) * 2 ^ (expo - 150)
  if s = 1 then -(mag : Int) else (mag : Int)

/-- Convert a 32-bit float bit pattern to a signed 32-bit integer,
truncating and saturating at the int32 range: the conversion performed by
`XMStoreSInt2/3/4` (DirectXMath saturates overflow in its SSE path). -/
def int32ofF32 (bits : Nat) : Int :=
  let t := truncF32toInt bits
  if t < -(2 ^ 31 : Int) then -(2 ^ 31)
  else if (2 ^ 31 - 1 : Int) < t then 2 ^ 31 - 1
  else t

/-- Convert a 32-bit float bit pattern to an unsigned 32-bit integer,
truncating and saturating at the uint32 range: the conversion performed by
`XMStoreUInt2/3/4`. -/
def uint32ofF32 (bits : Nat) : Nat :=
  let t := truncF32toInt bits
  if t < 0 then 0
  else if (2 ^ 32 - 1 : Int) < t then 2 ^ 32 - 1
  else t.toNat

/-- Component-wise absolute value on one lane's bit pattern: clears the
sign bit. -/
def absLane (a : Nat) : Nat := a % 2 ^ 31

/-! ### SIMD register types of the external library -/

/-- Model of DirectXMath `XMVECTOR`: four 32-bit lanes, each held as its
bit pattern. -/
structure XMVECTOR where
  x : Nat
  y : Nat
  z : Nat
  w : Nat
deriving DecidableEq, Repr

/-- Model of DirectXMath `XMMATRIX`: four rows `r[0] .. r[3]`, each an
`XMVECTOR`. -/
structure XMMATRIX where
  r0 : XMVECTOR
  r1 : XMVECTOR
  r2 : XMVECTOR
  r3 : XMVECTOR
deriving DecidableEq, Repr

/-- Model of DirectXMath `XMVectorAbs`: component-wise absolute value of
each lane. -/
def XMVectorAbs (v : XMVECTOR) : XMVECTOR :=
  ⟨absLane v.x, absLane v.y, absLane v.z, absLane v.w⟩

/-! ### Memory-layout types of the external library -/

/-- Model of DirectXMath `XMFLOAT2`: two floats held as bit patterns. -/
structure XMFLOAT2 where
  x : Nat
  y : Nat
deriving DecidableEq, Repr

/-- Model of DirectXMath `XMFLOAT2A` (16-byte aligned variant; alignment
does not affect the value-level model). -/
structure XMFLOAT2A where
  x : Nat
  y : Nat
deriving DecidableEq, Repr

/-- Model of DirectXMath `XMINT2`: two `int32_t` values. -/
structure XMINT2 where
  x : Int
  y : Int
deriving DecidableEq, Repr

/-- Model of DirectXMath `XMUINT2`: two `uint32_t` values. -/
structure XMUINT2 where
  x : Nat
  y : Nat
deriving DecidableEq, Repr

/-- Model of DirectXMath `XMFLOAT3`. -/
structure XMFLOAT3 where
  x : Nat
  y : Nat
  z : Nat
deriving DecidableEq, Repr

/-- Model of DirectXMath `XMFLOAT3A` (aligned variant). -/
structure XMFLOAT3A where
  x : Nat
  y : Nat
  z : Nat
deriving DecidableEq, Repr

/-- Model of DirectXMath `XMINT3`. -/
structure XMINT3 where
  x : Int
  y : Int
  z : Int
deriving DecidableEq, Repr

/-- Model of DirectXMath `XMUINT3`. -/
structure XMUINT3 where
  x : Nat
  y : Nat
  z : Nat
deriving DecidableEq, Repr

/-- Model of DirectXMath `XMFLOAT4`. -/
structure XMFLOAT4 where
  x : Nat
  y : Nat
  z : Nat
  w : Nat
deriving DecidableEq, Repr

/-- Model of DirectXMath `XMFLOAT4A` (aligned variant). -/
structure XMFLOAT4A where
  x : Nat
  y : Nat
  z : Nat
  w : Nat
deriving DecidableEq, Repr

/-- Model of DirectXMath `XMINT4`. -/
structure XMINT4 where
  x : Int
  y : Int
  z : Int
  w : Int
deriving DecidableEq, Repr

/-- Model of DirectXMath `XMUINT4`. -/
structure XMUINT4 where
  x : Nat
  y : Nat
  z : Nat
  w : Nat
deriving DecidableEq, Repr

/-- Model of DirectXMath `XMFLOAT3X3`: nine floats `m[i][j]`. -/
structure XMFLOAT3X3 where
  m00 : Nat
  m01 : Nat
  m02 : Nat
  m10 : Nat
  m11 : Nat
  m12 : Nat
  m20 : Nat
  m21 : Nat
  m22 : Nat
deriving DecidableEq, Repr

/-- Model of DirectXMath `XMFLOAT4X3`: twelve floats `m[i][j]`. -/
structure XMFLOAT4X3 where
  m00 : Nat
  m01 : Nat
  m02 : Nat
  m10 : Nat
  m11 : Nat
  m12 : Nat
  m20 : Nat
  m21 : Nat
  m22 : Nat
  m30 : Nat
  m31 : Nat
  m32 : Nat
deriving DecidableEq, Repr

/-- Model of DirectXMath `XMFLOAT4X3A` (aligned variant). -/
structure XMFLOAT4X3A where
  m00 : Nat
  m01 : Nat
  m02 : Nat
  m10 : Nat
  m11 : Nat
  m12 : Nat
  m20 : Nat
  m21 : Nat
  m22 : Nat
  m30 : Nat
  m31 : Nat
  m32 : Nat
deriving DecidableEq, Repr

/-- Model of DirectXMath `XMFLOAT4X4`: sixteen floats `m[i][j]`. -/
structure XMFLOAT4X4 where
  m00 : Nat
  m01 : Nat
  m02 : Nat
  m03 : Nat
  m10 : Nat
  m11 : Nat
  m12 : Nat
  m13 : Nat
  m20 : Nat
  m21 : Nat
  m22 : Nat
  m23 : Nat
  m30 : Nat
  m31 : Nat
  m32 : Nat
  m33 : Nat
deriving DecidableEq, Repr

/-- Model of DirectXMath `XMFLOAT4X4A` (aligned variant). -/
structure XMFLOAT4X4A where
  m00 : Nat
  m01 : Nat
  m02 : Nat
  m03 : Nat
  m10 : Nat
  m11 : Nat
  m12 : Nat
  m13 : Nat
  m20 : Nat
  m21 : Nat
  m22 : Nat
  m23 : Nat
  m30 : Nat
  m31 : Nat
  m32 : Nat
  m33 : Nat
deriving DecidableEq, Repr

/-! ### Load/store routines of the external library

Each `XMLoad*` routine fills an `XMVECTOR` from a memory-layout value (unused
lanes become `0`; matrix loads complete the last column/row with `0` and
`1.0f`), and each `XMStore*` routine writes every field of the memory-layout
value from the vector, so it is modelled as a function returning the freshly
written value. -/

/-- Model of `XMLoadFloat2`. -/
def XMLoadFloat2 (s : XMFLOAT2) : XMVECTOR := ⟨s.x, s.y, 0, 0⟩

/-- Model of `XMStoreFloat2`. -/
def XMStoreFloat2 (v : XMVECTOR) : XMFLOAT2 := ⟨v.x, v.y⟩

/-- Model of `XMLoadFloat2A`. -/
def XMLoadFloat2A (s : XMFLOAT2A) : XMVECTOR := ⟨s.x, s.y, 0, 0⟩

/-- Model of `XMStoreFloat2A`. -/
def XMStoreFloat2A (v : XMVECTOR) : XMFLOAT2A := ⟨v.x, v.y⟩

/-- Model of `XMLoadSInt2`: converts each `int32_t` component to float. -/
def XMLoadSInt2 (s : XMINT2) : XMVECTOR :=
  ⟨f32ofInt32 s.x, f32ofInt32 s.y, 0, 0⟩

/-- Model of `XMStoreSInt2`: truncates each float lane to `int32_t`. -/
def XMStoreSInt2 (v : XMVECTOR) : XMINT2 :=
  ⟨int32ofF32 v.x, int32ofF32 v.y⟩

/-- Model of `XMLoadUInt2`: converts each `uint32_t` component to float. -/
def XMLoadUInt2 (s : XMUINT2) : XMVECTOR :=
  ⟨f32ofNat s.x, f32ofNat s.y, 0, 0⟩

/-- Model of `XMStoreUInt2`: truncates each float lane to `uint32_t`. -/
def XMStoreUInt2 (v : XMVECTOR) : XMUINT2 :=
  ⟨uint32ofF32 v.x, uint32ofF32 v.y⟩

/-- Model of `XMLoadFloat3`. -/
def XMLoadFloat3 (s : XMFLOAT3) : XMVECTOR := ⟨s.x, s.y, s.z, 0⟩

/-- Model of `XMStoreFloat3`. -/
def XMStoreFloat3 (v : XMVECTOR) : XMFLOAT3 := ⟨v.x, v.y, v.z⟩

/-- Model of `XMLoadFloat3A`. -/
def XMLoadFloat3A (s : XMFLOAT3A) : XMVECTOR := ⟨s.x, s.y, s.z, 0⟩

/-- Model of `XMStoreFloat3A`. -/
def XMStoreFloat3A (v : XMVECTOR) : XMFLOAT3A := ⟨v.x, v.y, v.z⟩

/-- Model of `XMLoadSInt3`. -/
def XMLoadSInt3 (s : XMINT3) : XMVECTOR :=
  ⟨f32ofInt32 s.x, f32ofInt32 s.y, f32ofInt32 s.z, 0⟩

/-- Model of `XMStoreSInt3`. -/
def XMStoreSInt3 (v : XMVECTOR) : XMINT3 :=
  ⟨int32ofF32 v.x, int32ofF32 v.y, int32ofF32 v.z⟩

/-- Model of `XMLoadUInt3`. -/
def XMLoadUInt3 (s : XMUINT3) : XMVECTOR :=
  ⟨f32ofNat s.x, f32ofNat s.y, f32ofNat s.z, 0⟩

/-- Model of `XMStoreUInt3`. -/
def XMStoreUInt3 (v : XMVECTOR) : XMUINT3 :=
  ⟨uint32ofF32 v.x, uint32ofF32 v.y, uint32ofF32 v.z⟩

/-- Model of `XMLoadFloat4`. -/
def XMLoadFloat4 (s : XMFLOAT4) : XMVECTOR := ⟨s.x, s.y, s.z, s.w⟩

/-- Model of `XMStoreFloat4`. -/
def XMStoreFloat4 (v : XMVECTOR) : XMFLOAT4 := ⟨v.x, v.y, v.z, v.w⟩

/-- Model of `XMLoadFloat4A`. -/
def XMLoadFloat4A (s : XMFLOAT4A) : XMVECTOR := ⟨s.x, s.y, s.z, s.w⟩

/-- Model of `XMStoreFloat4A`. -/
def XMStoreFloat4A (v : XMVECTOR) : XMFLOAT4A := ⟨v.x, v.y, v.z, v.w⟩

/-- Model of `XMLoadSInt4`. -/
def XMLoadSInt4 (s : XMINT4) : XMVECTOR :=
  ⟨f32ofInt32 s.x, f32ofInt32 s.y, f32ofInt32 s.z, f32ofInt32 s.w⟩

/-- Model of `XMStoreSInt4`. -/
def XMStoreSInt4 (v : XMVECTOR) : XMINT4 :=
  ⟨int32ofF32 v.x, int32ofF32 v.y, int32ofF32 v.z, int32ofF32 v.w⟩

/-- Model of `XMLoadUInt4`. -/
def XMLoadUInt4 (s : XMUINT4) : XMVECTOR :=
  ⟨f32ofNat s.x, f32ofNat s.y, f32ofNat s.z, f32ofNat s.w⟩

/-- Model of `XMStoreUInt4`. -/
def XMStoreUInt4 (v : XMVECTOR) : XMUINT4 :=
  ⟨uint32ofF32 v.x, uint32ofF32 v.y, uint32ofF32 v.z, uint32ofF32 v.w⟩

/-- Model of `XMLoadFloat3x3`: the fourth column of each of the first three
rows is `0`, the fourth row is `(0, 0, 0, 1.0f)`. -/
def XMLoadFloat3x3 (s : XMFLOAT3X3) : XMMATRIX :=
  ⟨⟨s.m00, s.m01, s.m02, 0⟩,
   ⟨s.m10, s.m11, s.m12, 0⟩,
   ⟨s.m20, s.m21, s.m22, 0⟩,
   ⟨0, 0, 0, f32one⟩⟩

/-- Model of `XMStoreFloat3x3`: keeps the upper-left 3x3 block. -/
def XMStoreFloat3x3 (m : XMMATRIX) : XMFLOAT3X3 :=
  ⟨m.r0.x, m.r0.y, m.r0.z,
   m.r1.x, m.r1.y, m.r1.z,
   m.r2.x, m.r2.y, m.r2.z⟩

/-- Model of `XMLoadFloat4x3`: the fourth column is `(0, 0, 0, 1.0f)`. -/
def XMLoadFloat4x3 (s : XMFLOAT4X3) : XMMATRIX :=
  ⟨⟨s.m00, s.m01, s.m02, 0⟩,
   ⟨s.m10, s.m11, s.m12, 0⟩,
   ⟨s.m20, s.m21, s.m22, 0⟩,
   ⟨s.m30, s.m31, s.m32, f32one⟩⟩

/-- Model of `XMStoreFloat4x3`: drops the fourth column. -/
def XMStoreFloat4x3 (m : XMMATRIX) : XMFLOAT4X3 :=
  ⟨m.r0.x, m.r0.y, m.r0.z,
   m.r1.x, m.r1.y, m.r1.z,
   m.r2.x, m.r2.y, m.r2.z,
   m.r3.x, m.r3.y, m.r3.z⟩

/-- Model of `XMLoadFloat4x3A`. -/
def XMLoadFloat4x3A (s : XMFLOAT4X3A) : XMMATRIX :=
  ⟨⟨s.m00, s.m01, s.m02, 0⟩,
   ⟨s.m10, s.m11, s.m12, 0⟩,
   ⟨s.m20, s.m21, s.m22, 0⟩,
   ⟨s.m30, s.m31, s.m32, f32one⟩⟩

/-- Model of `XMStoreFloat4x3A`. -/
def XMStoreFloat4x3A (m : XMMATRIX) : XMFLOAT4X3A :=
  ⟨m.r0.x, m.r0.y, m.r0.z,
   m.r1.x, m.r1.y, m.r1.z,
   m.r2.x, m.r2.y, m.r2.z,
   m.r3.x, m.r3.y, m.r3.z⟩

/-- Model of `XMLoadFloat4x4`. -/
def XMLoadFloat4x4 (s : XMFLOAT4X4) : XMMATRIX :=
  ⟨⟨s.m00, s.m01, s.m02, s.m03⟩,
   ⟨s.m10, s.m11, s.m12, s.m13⟩,
   ⟨s.m20, s.m21, s.m22, s.m23⟩,
   ⟨s.m30, s.m31, s.m32, s.m33⟩⟩

/-- Model of `XMStoreFloat4x4`. -/
def XMStoreFloat4x4 (m : XMMATRIX) : XMFLOAT4X4 :=
  ⟨m.r0.x, m.r0.y, m.r0.z, m.r0.w,
   m.r1.x, m.r1.y, m.r1.z, m.r1.w,
   m.r2.x, m.r2.y, m.r2.z, m.r2.w,
   m.r3.x, m.r3.y, m.r3.z, m.r3.w⟩

/-- Model of `XMLoadFloat4x4A`. -/
def XMLoadFloat4x4A (s : XMFLOAT4X4A) : XMMATRIX :=
  ⟨⟨s.m00, s.m01, s.m02, s.m03⟩,
   ⟨s.m10, s.m11, s.m12, s.m13⟩,
   ⟨s.m20, s.m21, s.m22, s.m23⟩,
   ⟨s.m30, s.m31, s.m32, s.m33⟩⟩

/-- Model of `XMStoreFloat4x4A`. -/
def XMStoreFloat4x4A (m : XMMATRIX) : XMFLOAT4X4A :=
  ⟨m.r0.x, m.r0.y, m.r0.z, m.r0.w,
   m.r1.x, m.r1.y, m.r1.z, m.r1.w,
   m.r2.x, m.r2.y, m.r2.z, m.r2.w,
   m.r3.x, m.r3.y, m.r3.z, m.r3.w⟩

/-! ### The repository's function `MXMMatrixAbs`
(src/DirectXMathExtension.h lines 107-115) -/

/-- `MXMMatrixAbs`: builds `res` with `res.r[i] = XMVectorAbs(mat.r[i])`
for `i = 0..3` and returns it. -/
def MXMMatrixAbs (mat : XMMATRIX) : XMMATRIX :=
  ⟨XMVectorAbs mat.r0, XMVectorAbs mat.r1, XMVectorAbs mat.r2,
   XMVectorAbs mat.r3⟩

/-- State-passing form of the call `MXMMatrixAbs(mat)`: the argument is a
`const` reference and the body writes only the local `res`, so the call
returns the (unchanged) argument together with the result. -/
def MXMMatrixAbsCall (mat : XMMATRIX) : XMMATRIX × XMMATRIX :=
  (mat, MXMMatrixAbs mat)

/-! ### The repository's wrapper types

Each `MXM*` struct publicly inherits the corresponding `XM*` memory type and
adds no data member (src/DirectXMathExtension.h lines 120-497).  Besides the
three constructors forwarding to the base type's constructors, each adds
  * a converting constructor from the SIMD type (modelled by `ofVector` /
    `ofMatrix`): its body is the single store call `XMStore*(this, v)`;
  * a conversion operator to the SIMD type (modelled by `toVector` /
    `toMatrix`): its body is `return XMLoad*(this)`;
  * an assignment operator from the SIMD type (modelled by `assign`; the
    pair-returning `assignRet` also exposes the value observed through the
    returned `*this` reference): its body stores and returns `*this`. -/

/-- `MXMFLOAT2 : public XMFLOAT2`, no added data members. -/
structure MXMFLOAT2 extends XMFLOAT2
deriving DecidableEq, Repr

/-- `MXMFLOAT2(FXMVECTOR v) { XMStoreFloat2(this, v); }` -/
def MXMFLOAT2.ofVector (v : XMVECTOR) : MXMFLOAT2 := ⟨XMStoreFloat2 v⟩

/-- `operator const XMVECTOR() const { return XMLoadFloat2(this); }` -/
def MXMFLOAT2.toVector (s : MXMFLOAT2) : XMVECTOR :=
  XMLoadFloat2 s.toXMFLOAT2

/-- `operator= (const FXMVECTOR v) { XMStoreFloat2(this, v); return *this; }`
— the new state of the assigned-to object. -/
def MXMFLOAT2.assign (s : MXMFLOAT2) (v : XMVECTOR) : MXMFLOAT2 :=
  ⟨XMStoreFloat2 v⟩

/-- The assignment together with the value observed through the returned
reference (`return *this` after the store). -/
def MXMFLOAT2.assignRet (s : MXMFLOAT2) (v : XMVECTOR) :
    MXMFLOAT2 × MXMFLOAT2 :=
  let t := MXMFLOAT2.assign s v
  (t, t)

/-- `MXMFLOAT2A : public XMFLOAT2A`, no added data members. -/
structure MXMFLOAT2A extends XMFLOAT2A
deriving DecidableEq, Repr

/-- `MXMFLOAT2A(FXMVECTOR v) { XMStoreFloat2A(this, v); }` -/
def MXMFLOAT2A.ofVector (v : XMVECTOR) : MXMFLOAT2A := ⟨XMStoreFloat2A v⟩

/-- `operator const XMVECTOR() const { return XMLoadFloat2A(this); }` -/
def MXMFLOAT2A.toVector (s : MXMFLOAT2A) : XMVECTOR :=
  XMLoadFloat2A s.toXMFLOAT2A

/-- The assignment operator of `MXMFLOAT2A`. -/
def MXMFLOAT2A.assign (s : MXMFLOAT2A) (v : XMVECTOR) : MXMFLOAT2A :=
  ⟨XMStoreFloat2A v⟩

/-- Assignment plus the value returned through `*this`. -/
def MXMFLOAT2A.assignRet (s : MXMFLOAT2A) (v : XMVECTOR) :
    MXMFLOAT2A × MXMFLOAT2A :=
  let t := MXMFLOAT2A.assign s v
  (t, t)

/-- `MXMINT2 : public XMINT2`, no added data members. -/
structure MXMINT2 extends XMINT2
deriving DecidableEq, Repr

/-- `MXMINT2(FXMVECTOR v) { XMStoreSInt2(this, v); }` -/
def MXMINT2.ofVector (v : XMVECTOR) : MXMINT2 := ⟨XMStoreSInt2 v⟩

/-- `operator const XMVECTOR() const { return XMLoadSInt2(this); }` -/
def MXMINT2.toVector (s : MXMINT2) : XMVECTOR :=
  XMLoadSInt2 s.toXMINT2

/-- The assignment operator of `MXMINT2`. -/
def MXMINT2.assign (s : MXMINT2) (v : XMVECTOR) : MXMINT2 :=
  ⟨XMStoreSInt2 v⟩

/-- Assignment plus the value returned through `*this`. -/
def MXMINT2.assignRet (s : MXMINT2) (v : XMVECTOR) : MXMINT2 × MXMINT2 :=
  let t := MXMINT2.assign s v
  (t, t)

/-- `MXMUINT2 : public XMUINT2`, no added data members. -/
structure MXMUINT2 extends XMUINT2
deriving DecidableEq, Repr

/-- `MXMUINT2(FXMVECTOR v) { XMStoreUInt2(this, v); }` -/
def MXMUINT2.ofVector (v : XMVECTOR) : MXMUINT2 := ⟨XMStoreUInt2 v⟩

/-- `operator const XMVECTOR() const { return XMLoadUInt2(this); }` -/
def MXMUINT2.toVector (s : MXMUINT2) : XMVECTOR :=
  XMLoadUInt2 s.toXMUINT2

/-- The assignment operator of `MXMUINT2`. -/
def MXMUINT2.assign (s : MXMUINT2) (v : XMVECTOR) : MXMUINT2 :=
  ⟨XMStoreUInt2 v⟩

/-- Assignment plus the value returned through `*this`. -/
def MXMUINT2.assignRet (s : MXMUINT2) (v : XMVECTOR) : MXMUINT2 × MXMUINT2 :=
  let t := MXMUINT2.assign s v
  (t, t)

/-- `MXMFLOAT3 : public XMFLOAT3`, no added data members. -/
structure MXMFLOAT3 extends XMFLOAT3
deriving DecidableEq, Repr

/-- `MXMFLOAT3(FXMVECTOR v) { XMStoreFloat3(this, v); }` -/
def MXMFLOAT3.ofVector (v : XMVECTOR) : MXMFLOAT3 := ⟨XMStoreFloat3 v⟩

/-- `operator const XMVECTOR() const { return XMLoadFloat3(this); }` -/
def MXMFLOAT3.toVector (s : MXMFLOAT3) : XMVECTOR :=
  XMLoadFloat3 s.toXMFLOAT3

/-- The assignment operator of `MXMFLOAT3`. -/
def MXMFLOAT3.assign (s : MXMFLOAT3) (v : XMVECTOR) : MXMFLOAT3 :=
  ⟨XMStoreFloat3 v⟩

/-- Assignment plus the value returned through `*this`. -/
def MXMFLOAT3.assignRet (s : MXMFLOAT3) (v : XMVECTOR) :
    MXMFLOAT3 × MXMFLOAT3 :=
  let t := MXMFLOAT3.assign s v
  (t, t)

/-- `MXMFLOAT3A : public XMFLOAT3A`, no added data members. -/
structure MXMFLOAT3A extends XMFLOAT3A
deriving DecidableEq, Repr

/-- `MXMFLOAT3A(FXMVECTOR v) { XMStoreFloat3A(this, v); }` -/
def MXMFLOAT3A.ofVector (v : XMVECTOR) : MXMFLOAT3A := ⟨XMStoreFloat3A v⟩

/-- `operator const XMVECTOR() const { return XMLoadFloat3A(this); }` -/
def MXMFLOAT3A.toVector (s : MXMFLOAT3A) : XMVECTOR :=
  XMLoadFloat3A s.toXMFLOAT3A

/-- The assignment operator of `MXMFLOAT3A`. -/
def MXMFLOAT3A.assign (s : MXMFLOAT3A) (v : XMVECTOR) : MXMFLOAT3A :=
  ⟨XMStoreFloat3A v⟩

/-- Assignment plus the value returned through `*this`. -/
def MXMFLOAT3A.assignRet (s : MXMFLOAT3A) (v : XMVECTOR) :
    MXMFLOAT3A × MXMFLOAT3A :=
  let t := MXMFLOAT3A.assign s v
  (t, t)

/-- `MXMINT3 : public XMINT3`, no added data members. -/
structure MXMINT3 extends XMINT3
deriving DecidableEq, Repr

/-- `MXMINT3(FXMVECTOR v) { XMStoreSInt3(this, v); }` -/
def MXMINT3.ofVector (v : XMVECTOR) : MXMINT3 := ⟨XMStoreSInt3 v⟩

/-- `operator const XMVECTOR() const { return XMLoadSInt3(this); }` -/
def MXMINT3.toVector (s : MXMINT3) : XMVECTOR :=
  XMLoadSInt3 s.toXMINT3

/-- The assignment operator of `MXMINT3`. -/
def MXMINT3.assign (s : MXMINT3) (v : XMVECTOR) : MXMINT3 :=
  ⟨XMStoreSInt3 v⟩

/-- Assignment plus the value returned through `*this`. -/
def MXMINT3.assignRet (s : MXMINT3) (v : XMVECTOR) : MXMINT3 × MXMINT3 :=
  let t := MXMINT3.assign s v
  (t, t)

/-- `MXMUINT3 : public XMUINT3`, no added data members. -/
structure MXMUINT3 extends XMUINT3
deriving DecidableEq, Repr

/-- `MXMUINT3(FXMVECTOR v) { XMStoreUInt3(this, v); }` -/
def MXMUINT3.ofVector (v : XMVECTOR) : MXMUINT3 := ⟨XMStoreUInt3 v⟩

/-- `operator const XMVECTOR() const { return XMLoadUInt3(this); }` -/
def MXMUINT3.toVector (s : MXMUINT3) : XMVECTOR :=
  XMLoadUInt3 s.toXMUINT3

/-- The assignment operator of `MXMUINT3`. -/
def MXMUINT3.assign (s : MXMUINT3) (v : XMVECTOR) : MXMUINT3 :=
  ⟨XMStoreUInt3 v⟩

/-- Assignment plus the value returned through `*this`. -/
def MXMUINT3.assignRet (s : MXMUINT3) (v : XMVECTOR) : MXMUINT3 × MXMUINT3 :=
  let t := MXMUINT3.assign s v
  (t, t)

/-- `MXMFLOAT4 : public XMFLOAT4`, no added data members. -/
structure MXMFLOAT4 extends XMFLOAT4
deriving DecidableEq, Repr

/-- `MXMFLOAT4(FXMVECTOR v) { XMStoreFloat4(this, v); }` -/
def MXMFLOAT4.ofVector (v : XMVECTOR) : MXMFLOAT4 := ⟨XMStoreFloat4 v⟩

/-- `operator const XMVECTOR() const { return XMLoadFloat4(this); }` -/
def MXMFLOAT4.toVector (s : MXMFLOAT4) : XMVECTOR :=
  XMLoadFloat4 s.toXMFLOAT4

/-- The assignment operator of `MXMFLOAT4`. -/
def MXMFLOAT4.assign (s : MXMFLOAT4) (v : XMVECTOR) : MXMFLOAT4 :=
  ⟨XMStoreFloat4 v⟩

/-- Assignment plus the value returned through `*this`. -/
def MXMFLOAT4.assignRet (s : MXMFLOAT4) (v : XMVECTOR) :
    MXMFLOAT4 × MXMFLOAT4 :=
  let t := MXMFLOAT4.assign s v
  (t, t)

/-- `MXMFLOAT4A : public XMFLOAT4A`, no added data members. -/
structure MXMFLOAT4A extends XMFLOAT4A
deriving DecidableEq, Repr

/-- `MXMFLOAT4A(FXMVECTOR v) { XMStoreFloat4A(this, v); }` -/
def MXMFLOAT4A.ofVector (v : XMVECTOR) : MXMFLOAT4A := ⟨XMStoreFloat4A v⟩

/-- `operator const XMVECTOR() const { return XMLoadFloat4A(this); }` -/
def MXMFLOAT4A.toVector (s : MXMFLOAT4A) : XMVECTOR :=
  XMLoadFloat4A s.toXMFLOAT4A

/-- The assignment operator of `MXMFLOAT4A`. -/
def MXMFLOAT4A.assign (s : MXMFLOAT4A) (v : XMVECTOR) : MXMFLOAT4A :=
  ⟨XMStoreFloat4A v⟩

/-- Assignment plus the value returned through `*this`. -/
def MXMFLOAT4A.assignRet (s : MXMFLOAT4A) (v : XMVECTOR) :
    MXMFLOAT4A × MXMFLOAT4A :=
  let t := MXMFLOAT4A.assign s v
  (t, t)

/-- `MXMINT4 : public XMINT4`, no added data members. -/
structure MXMINT4 extends XMINT4
deriving DecidableEq, Repr

/-- `MXMINT4(FXMVECTOR v) { XMStoreSInt4(this, v); }` -/
def MXMINT4.ofVector (v : XMVECTOR) : MXMINT4 := ⟨XMStoreSInt4 v⟩

/-- `operator const XMVECTOR() const { return XMLoadSInt4(this); }` -/
def MXMINT4.toVector (s : MXMINT4) : XMVECTOR :=
  XMLoadSInt4 s.toXMINT4

/-- The assignment operator of `MXMINT4`. -/
def MXMINT4.assign (s : MXMINT4) (v : XMVECTOR) : MXMINT4 :=
  ⟨XMStoreSInt4 v⟩

/-- Assignment plus the value returned through `*this`. -/
def MXMINT4.assignRet (s : MXMINT4) (v : XMVECTOR) : MXMINT4 × MXMINT4 :=
  let t := MXMINT4.assign s v
  (t, t)

/-- `MXMUINT4 : public XMUINT4`, no added data members. -/
structure MXMUINT4 extends XMUINT4
deriving DecidableEq, Repr

/-- `MXMUINT4(FXMVECTOR v) { XMStoreUInt4(this, v); }` -/
def MXMUINT4.ofVector (v : XMVECTOR) : MXMUINT4 := ⟨XMStoreUInt4 v⟩

/-- `operator const XMVECTOR() const { return XMLoadUInt4(this); }` -/
def MXMUINT4.toVector (s : MXMUINT4) : XMVECTOR :=
  XMLoadUInt4 s.toXMUINT4

/-- The assignment operator of `MXMUINT4`. -/
def MXMUINT4.assign (s : MXMUINT4) (v : XMVECTOR) : MXMUINT4 :=
  ⟨XMStoreUInt4 v⟩

/-- Assignment plus the value returned through `*this`. -/
def MXMUINT4.assignRet (s : MXMUINT4) (v : XMVECTOR) : MXMUINT4 × MXMUINT4 :=
  let t := MXMUINT4.assign s v
  (t, t)

/-- `MXMFLOAT3X3 : public XMFLOAT3X3`, no added data members. -/
structure MXMFLOAT3X3 extends XMFLOAT3X3
deriving DecidableEq, Repr

/-- `MXMFLOAT3X3(CXMMATRIX m) { XMStoreFloat3x3(this, m); }` -/
def MXMFLOAT3X3.ofMatrix (m : XMMATRIX) : MXMFLOAT3X3 := ⟨XMStoreFloat3x3 m⟩

/-- `operator const XMMATRIX() const { return XMLoadFloat3x3(this); }` -/
def MXMFLOAT3X3.toMatrix (s : MXMFLOAT3X3) : XMMATRIX :=
  XMLoadFloat3x3 s.toXMFLOAT3X3

/-- The assignment operator of `MXMFLOAT3X3`. -/
def MXMFLOAT3X3.assign (s : MXMFLOAT3X3) (m : XMMATRIX) : MXMFLOAT3X3 :=
  ⟨XMStoreFloat3x3 m⟩

/-- Assignment plus the value returned through `*this`. -/
def MXMFLOAT3X3.assignRet (s : MXMFLOAT3X3) (m : XMMATRIX) :
    MXMFLOAT3X3 × MXMFLOAT3X3 :=
  let t := MXMFLOAT3X3.assign s m
  (t, t)

/-- `MXMFLOAT4X3 : public XMFLOAT4X3`, no added data members. -/
structure MXMFLOAT4X3 extends XMFLOAT4X3
deriving DecidableEq, Repr

/-- `MXMFLOAT4X3(CXMMATRIX m) { XMStoreFloat4x3(this, m); }` -/
def MXMFLOAT4X3.ofMatrix (m : XMMATRIX) : MXMFLOAT4X3 := ⟨XMStoreFloat4x3 m⟩

/-- `operator const XMMATRIX() const { return XMLoadFloat4x3(this); }` -/
def MXMFLOAT4X3.toMatrix (s : MXMFLOAT4X3) : XMMATRIX :=
  XMLoadFloat4x3 s.toXMFLOAT4X3

/-- The assignment operator of `MXMFLOAT4X3`. -/
def MXMFLOAT4X3.assign (s : MXMFLOAT4X3) (m : XMMATRIX) : MXMFLOAT4X3 :=
  ⟨XMStoreFloat4x3 m⟩

/-- Assignment plus the value returned through `*this`. -/
def MXMFLOAT4X3.assignRet (s : MXMFLOAT4X3) (m : XMMATRIX) :
    MXMFLOAT4X3 × MXMFLOAT4X3 :=
  let t := MXMFLOAT4X3.assign s m
  (t, t)

/-- `MXMFLOAT4X3A : public XMFLOAT4X3A`, no added data members. -/
structure MXMFLOAT4X3A extends XMFLOAT4X3A
deriving DecidableEq, Repr

/-- `MXMFLOAT4X3A(CXMMATRIX m) { XMStoreFloat4x3A(this, m); }` -/
def MXMFLOAT4X3A.ofMatrix (m : XMMATRIX) : MXMFLOAT4X3A :=
  ⟨XMStoreFloat4x3A m⟩

/-- `operator const XMMATRIX() const { return XMLoadFloat4x3A(this); }` -/
def MXMFLOAT4X3A.toMatrix (s : MXMFLOAT4X3A) : XMMATRIX :=
  XMLoadFloat4x3A s.toXMFLOAT4X3A

/-- The assignment operator of `MXMFLOAT4X3A`. -/
def MXMFLOAT4X3A.assign (s : MXMFLOAT4X3A) (m : XMMATRIX) : MXMFLOAT4X3A :=
  ⟨XMStoreFloat4x3A m⟩

/-- Assignment plus the value returned through `*this`. -/
def MXMFLOAT4X3A.assignRet (s : MXMFLOAT4X3A) (m : XMMATRIX) :
    MXMFLOAT4X3A × MXMFLOAT4X3A :=
  let t := MXMFLOAT4X3A.assign s m
  (t, t)

/-- `MXMFLOAT4X4 : public XMFLOAT4X4`, no added data members. -/
structure MXMFLOAT4X4 extends XMFLOAT4X4
deriving DecidableEq, Repr

/-- `MXMFLOAT4X4(CXMMATRIX m) { XMStoreFloat4x4(this, m); }` -/
def MXMFLOAT4X4.ofMatrix (m : XMMATRIX) : MXMFLOAT4X4 := ⟨XMStoreFloat4x4 m⟩

/-- `operator const XMMATRIX() const { return XMLoadFloat4x4(this); }` -/
def MXMFLOAT4X4.toMatrix (s : MXMFLOAT4X4) : XMMATRIX :=
  XMLoadFloat4x4 s.toXMFLOAT4X4

/-- The assignment operator of `MXMFLOAT4X4`. -/
def MXMFLOAT4X4.assign (s : MXMFLOAT4X4) (m : XMMATRIX) : MXMFLOAT4X4 :=
  ⟨XMStoreFloat4x4 m⟩

/-- Assignment plus the value returned through `*this`. -/
def MXMFLOAT4X4.assignRet (s : MXMFLOAT4X4) (m : XMMATRIX) :
    MXMFLOAT4X4 × MXMFLOAT4X4 :=
  let t := MXMFLOAT4X4.assign s m
  (t, t)

/-- `MXMFLOAT4X4A : public XMFLOAT4X4A`, no added data members. -/
structure MXMFLOAT4X4A extends XMFLOAT4X4A
deriving DecidableEq, Repr

/-- `MXMFLOAT4X4A(CXMMATRIX m) { XMStoreFloat4x4A(this, m); }` -/
def MXMFLOAT4X4A.ofMatrix (m : XMMATRIX) : MXMFLOAT4X4A :=
  ⟨XMStoreFloat4x4A m⟩

/-- `operator const XMMATRIX() const { return XMLoadFloat4x4A(this); }` -/
def MXMFLOAT4X4A.toMatrix (s : MXMFLOAT4X4A) : XMMATRIX :=
  XMLoadFloat4x4A s.toXMFLOAT4X4A

/-- The assignment operator of `MXMFLOAT4X4A`. -/
def MXMFLOAT4X4A.assign (s : MXMFLOAT4X4A) (m : XMMATRIX) : MXMFLOAT4X4A :=
  ⟨XMStoreFloat4x4A m⟩

/-- Assignment plus the value returned through `*this`. -/
def MXMFLOAT4X4A.assignRet (s : MXMFLOAT4X4A) (m : XMMATRIX) :
    MXMFLOAT4X4A × MXMFLOAT4X4A :=
  let t := MXMFLOAT4X4A.assign s m
  (t, t)

/-! ### Name-level model of the repository's declarations

Used for the claims about the shape of the code: which library routine each
member forwards to, and which names the `_MXM_USE_OVERWRITE_DEFINES` block
redefines (src/DirectXMathExtension.h lines 499-522). -/

/-- The seventeen wrapper type names defined by the repository. -/
inductive MXMTypeName where
  | mxmfloat2
  | mxmfloat2a
  | mxmint2
  | mxmuint2
  | mxmfloat3
  | mxmfloat3a
  | mxmint3
  | mxmuint3
  | mxmfloat4
  | mxmfloat4a
  | mxmint4
  | mxmuint4
  | mxmfloat3x3
  | mxmfloat4x3
  | mxmfloat4x3a
  | mxmfloat4x4
  | mxmfloat4x4a
deriving DecidableEq, Fintype, Repr

/-- The seventeen memory-type names of the underlying library that the
wrapper covers. -/
inductive DXTypeName where
  | xmfloat2
  | xmfloat2a
  | xmint2
  | xmuint2
  | xmfloat3
  | xmfloat3a
  | xmint3
  | xmuint3
  | xmfloat4
  | xmfloat4a
  | xmint4
  | xmuint4
  | xmfloat3x3
  | xmfloat4x3
  | xmfloat4x3a
  | xmfloat4x4
  | xmfloat4x4a
deriving DecidableEq, Fintype, Repr

/-- The library routines called by the repository's code: the load and store
routine of each memory type, and `XMVectorAbs`. -/
inductive LibRoutineName where
  | load (t : MXMTypeName)
  | store (t : MXMTypeName)
  | vectorAbs
deriving DecidableEq, Fintype, Repr

/-- Whether a library routine is a load or store routine. -/
def LibRoutineName.isLoadOrStore : LibRoutineName → Bool
  | .load _ => true
  | .store _ => true
  | .vectorAbs => false

/-- The six members each wrapper type defines: three constructors forwarding
to the base type's constructors, the converting constructor from the SIMD
type, the conversion operator to the SIMD type, and the assignment operator
from the SIMD type. -/
inductive MemberOp where
  | defaultCtor
  | componentCtor
  | arrayCtor
  | simdCtor
  | simdConv
  | simdAssign
deriving DecidableEq, Fintype, Repr

/-- Every operation (member function or free function) defined by the
repository. -/
inductive RepoOp where
  | member (t : MXMTypeName) (op : MemberOp)
  | matrixAbs
deriving DecidableEq, Fintype, Repr

/-- What an operation's body does: forward to the base type's constructor,
make a single forwarding call to one library routine, or make a sequence of
library-routine calls. -/
inductive ForwardTarget where
  | baseCtor
  | routine (r : LibRoutineName)
  | calls (rs : List LibRoutineName)
deriving DecidableEq, Repr

/-- The body of each operation of the repository, read off member by member
from src/DirectXMathExtension.h: the three plain constructors forward to the
base type's constructors; the SIMD constructor and the assignment operator
are a single `XMStore*` call; the conversion operator is a single `XMLoad*`
call; `MXMMatrixAbs` applies `XMVectorAbs` to each of the four rows. -/
def forwardsTo : RepoOp → ForwardTarget
  | .member _ .defaultCtor => .baseCtor
  | .member _ .componentCtor => .baseCtor
  | .member _ .arrayCtor => .baseCtor
  | .member t .simdCtor => .routine (.store t)
  | .member t .simdConv => .routine (.load t)
  | .member t .simdAssign => .routine (.store t)
  | .matrixAbs =>
      .calls [.vectorAbs, .vectorAbs, .vectorAbs, .vectorAbs]

/-- The name-replacement map of the `_MXM_USE_OVERWRITE_DEFINES` block,
transcribed define by define from src/DirectXMathExtension.h lines 501-520. -/
def overwriteDefine : DXTypeName → MXMTypeName
  | .xmfloat2 => .mxmfloat2
  | .xmint2 => .mxmint2
  | .xmuint2 => .mxmuint2
  | .xmfloat2a => .mxmfloat2a
  | .xmfloat3 => .mxmfloat3
  | .xmfloat3a => .mxmfloat3a
  | .xmint3 => .mxmint3
  | .xmuint3 => .mxmuint3
  | .xmfloat4 => .mxmfloat4
  | .xmfloat4a => .mxmfloat4a
  | .xmint4 => .mxmint4
  | .xmuint4 => .mxmuint4
  | .xmfloat3x3 => .mxmfloat3x3
  | .xmfloat4x3 => .mxmfloat4x3
  | .xmfloat4x3a => .mxmfloat4x3a
  | .xmfloat4x4 => .mxmfloat4x4
  | .xmfloat4x4a => .mxmfloat4x4a

/-- Modelled from the spec: the "corresponding M-prefixed wrapper type" of
each library memory-type name (same name with the `M` added in front). -/
def wrapperOf : DXTypeName → MXMTypeName
  | .xmfloat2 => .mxmfloat2
  | .xmfloat2a => .mxmfloat2a
  | .xmint2 => .mxmint2
  | .xmuint2 => .mxmuint2
  | .xmfloat3 => .mxmfloat3
  | .xmfloat3a => .mxmfloat3a
  | .xmint3 => .mxmint3
  | .xmuint3 => .mxmuint3
  | .xmfloat4 => .mxmfloat4
  | .xmfloat4a => .mxmfloat4a
  | .xmint4 => .mxmint4
  | .xmuint4 => .mxmuint4
  | .xmfloat3x3 => .mxmfloat3x3
  | .xmfloat4x3 => .mxmfloat4x3
  | .xmfloat4x3a => .mxmfloat4x3a
  | .xmfloat4x4 => .mxmfloat4x4
  | .xmfloat4x4a => .mxmfloat4x4a

/-! ### Monadic translation of the forwarding bodies

For the error-handling claim: each wrapper member's body performs exactly one
call to a library routine and nothing else, so translating the body into an
error monad over an arbitrary (possibly fallible) version of that routine
shows that any failure can come only from the forwarded routine. -/

/-- Is the outcome a success? -/
def exOk {ε α : Type} : Except ε α → Bool
  | .ok _ => true
  | .error _ => false

/-- Monadic translation of the SIMD-constructor body
`{ XMStore*(this, v); }` over a fallible store routine. -/
def fwdStoreCtorE {ε Mem Vec W : Type} (mk : Mem → W)
    (storeE : Vec → Except ε Mem) (v : Vec) : Except ε W :=
  match storeE v with
  | .ok m => .ok (mk m)
  | .error e => .error e

/-- Monadic translation of the conversion-operator body
`{ return XMLoad*(this); }` over a fallible load routine. -/
def fwdLoadConvE {ε Mem Vec W : Type} (base : W → Mem)
    (loadE : Mem → Except ε Vec) (s : W) : Except ε Vec :=
  loadE (base s)

/-- Monadic translation of the assignment-operator body
`{ XMStore*(this, v); return *this; }` over a fallible store routine. -/
def fwdStoreAssignE {ε Mem Vec W : Type} (mk : Mem → W)
    (storeE : Vec → Except ε Mem) (s : W) (v : Vec) : Except ε W :=
  match storeE v with
  | .ok m => .ok (mk m)
  | .error e => .error e

/-- A load/store routine of the library that cannot fail, lifted into the
error monad with the uninhabited error type. -/
def pureRoutineE {Mem Vec : Type} (f : Mem → Vec) : Mem → Except Empty Vec :=
  fun m => .ok (f m)

/-! ### State-passing translations for the frame claim -/

/-- State-passing translation of a `const` member function (the conversion
operator) over a program state holding the object together with arbitrary
unrelated data `W`: the body reads only the fields of `this` and, being
`const` with no other output, writes nothing. -/
def convCallSt {M W R : Type} (conv : M → R) (s : M × W) : (M × W) × R :=
  (s, conv s.1)

/-- State-passing translation of the SIMD assignment operator over a program
state holding the object together with arbitrary unrelated data `W`: the
body overwrites the fields of `this` from `v` and touches nothing else. -/
def assignCallSt {M W V : Type} (asg : M → V → M) (s : M × W) (v : V) :
    (M × W) × M :=
  ((asg s.1 v, s.2), asg s.1 v)

/-! ### Models of the base types' array constructors

Each `XM*` memory type of the library has a constructor reading its
components from a pointer `pArray`; the wrapper's array constructor forwards
to it.  The pointed-to array is modelled as a function from index to
element. -/

/-- Model of `XMFLOAT2(const float *pArray)`. -/
def XMFLOAT2.ofArray (p : Nat → Nat) : XMFLOAT2 := ⟨p 0, p 1⟩

/-- Model of `XMFLOAT2A(const float *pArray)`. -/
def XMFLOAT2A.ofArray (p : Nat → Nat) : XMFLOAT2A := ⟨p 0, p 1⟩

/-- Model of `XMINT2(const int32_t *pArray)`. -/
def XMINT2.ofArray (p : Nat → Int) : XMINT2 := ⟨p 0, p 1⟩

/-- Model of `XMUINT2(const uint32_t *pArray)`. -/
def XMUINT2.ofArray (p : Nat → Nat) : XMUINT2 := ⟨p 0, p 1⟩

/-- Model of `XMFLOAT3(const float *pArray)`. -/
def XMFLOAT3.ofArray (p : Nat → Nat) : XMFLOAT3 := ⟨p 0, p 1, p 2⟩

/-- Model of `XMFLOAT3A(const float *pArray)`. -/
def XMFLOAT3A.ofArray (p : Nat → Nat) : XMFLOAT3A := ⟨p 0, p 1, p 2⟩

/-- Model of `XMINT3(const int32_t *pArray)`. -/
def XMINT3.ofArray (p : Nat → Int) : XMINT3 := ⟨p 0, p 1, p 2⟩

/-- Model of `XMUINT3(const uint32_t *pArray)`. -/
def XMUINT3.ofArray (p : Nat → Nat) : XMUINT3 := ⟨p 0, p 1, p 2⟩

/-- Model of `XMFLOAT4(const float *pArray)`. -/
def XMFLOAT4.ofArray (p : Nat → Nat) : XMFLOAT4 := ⟨p 0, p 1, p 2, p 3⟩

/-- Model of `XMFLOAT4A(const float *pArray)`. -/
def XMFLOAT4A.ofArray (p : Nat → Nat) : XMFLOAT4A := ⟨p 0, p 1, p 2, p 3⟩

/-- Model of `XMINT4(const int32_t *pArray)`. -/
def XMINT4.ofArray (p : Nat → Int) : XMINT4 := ⟨p 0, p 1, p 2, p 3⟩

/-- Model of `XMUINT4(const uint32_t *pArray)`. -/
def XMUINT4.ofArray (p : Nat → Nat) : XMUINT4 := ⟨p 0, p 1, p 2, p 3⟩

/-- Model of `XMFLOAT3X3(const float *pArray)` (nine floats, row major). -/
def XMFLOAT3X3.ofArray (p : Nat → Nat) : XMFLOAT3X3 :=
  ⟨p 0, p 1, p 2, p 3, p 4, p 5, p 6, p 7, p 8⟩

/-- Model of `XMFLOAT4X3(const float *pArray)` (twelve floats, row
major). -/
def XMFLOAT4X3.ofArray (p : Nat → Nat) : XMFLOAT4X3 :=
  ⟨p 0, p 1, p 2, p 3, p 4, p 5, p 6, p 7, p 8, p 9, p 10, p 11⟩

/-- Model of `XMFLOAT4X3A(const float *pArray)`. -/
def XMFLOAT4X3A.ofArray (p : Nat → Nat) : XMFLOAT4X3A :=
  ⟨p 0, p 1, p 2, p 3, p 4, p 5, p 6, p 7, p 8, p 9, p 10, p 11⟩

/-- Model of `XMFLOAT4X4(const float *pArray)` (sixteen floats, row
major). -/
def XMFLOAT4X4.ofArray (p : Nat → Nat) : XMFLOAT4X4 :=
  ⟨p 0, p 1, p 2, p 3, p 4, p 5, p 6, p 7, p 8, p 9, p 10, p 11,
   p 12, p 13, p 14, p 15⟩

/-- Model of `XMFLOAT4X4A(const float *pArray)`. -/
def XMFLOAT4X4A.ofArray (p : Nat → Nat) : XMFLOAT4X4A :=
  ⟨p 0, p 1, p 2, p 3, p 4, p 5, p 6, p 7, p 8, p 9, p 10, p 11,
   p 12, p 13, p 14, p 15⟩

/-- Monadic translation of a base-forwarding constructor body
`MXM*(args) : XM*(args) {}` over a fallible version of the base type's
constructor: the wrapper constructor does nothing beyond the forwarded
base-constructor call. -/
def fwdBaseCtorE {ε A Mem W : Type} (mk : Mem → W)
    (ctorE : A → Except ε Mem) (a : A) : Except ε W :=
  match ctorE a with
  | .ok m => .ok (mk m)
  | .error e => .error e

/-- Monadic translation of the body of `MXMMatrixAbs` over a fallible
version of `XMVectorAbs`: four calls, one per row, and nothing else. -/
def mxmMatrixAbsE {ε : Type} (vAbsE : XMVECTOR → Except ε XMVECTOR)
    (mat : XMMATRIX) : Except ε XMMATRIX :=
  match vAbsE mat.r0 with
  | .error e => .error e
  | .ok a0 =>
    match vAbsE mat.r1 with
    | .error e => .error e
    | .ok a1 =>
      match vAbsE mat.r2 with
      | .error e => .error e
      | .ok a2 =>
        match vAbsE mat.r3 with
        | .error e => .error e
        | .ok a3 => .ok ⟨a0, a1, a2, a3⟩

/-! ## Theorems for the claims -/

/-- Claim C1: for every wrapper memory-type, the implicit conversion path is
numerically equivalent to the explicit path: assigning a SIMD value `v` to a
wrapper object (by assignment operator or converting constructor) leaves the
object's fields equal to the result of the corresponding `XMStore` routine
applied to `v`, and converting a wrapper object to a SIMD value returns
exactly the result of the corresponding `XMLoad` routine on the same
fields. -/
theorem mxm_C1_implicit_explicit_paths_agree :
    (∀ (s : MXMFLOAT2) (v : XMVECTOR),
      (MXMFLOAT2.assign s v).toXMFLOAT2 = XMStoreFloat2 v)
    ∧ (∀ v : XMVECTOR, (MXMFLOAT2.ofVector v).toXMFLOAT2 = XMStoreFloat2 v)
    ∧ (∀ s : MXMFLOAT2, MXMFLOAT2.toVector s = XMLoadFloat2 s.toXMFLOAT2)
    ∧ (∀ (s : MXMFLOAT2A) (v : XMVECTOR),
      (MXMFLOAT2A.assign s v).toXMFLOAT2A = XMStoreFloat2A v)
    ∧ (∀ v : XMVECTOR, (MXMFLOAT2A.ofVector v).toXMFLOAT2A = XMStoreFloat2A v)
    ∧ (∀ s : MXMFLOAT2A, MXMFLOAT2A.toVector s = XMLoadFloat2A s.toXMFLOAT2A)
    ∧ (∀ (s : MXMINT2) (v : XMVECTOR),
      (MXMINT2.assign s v).toXMINT2 = XMStoreSInt2 v)
    ∧ (∀ v : XMVECTOR, (MXMINT2.ofVector v).toXMINT2 = XMStoreSInt2 v)
    ∧ (∀ s : MXMINT2, MXMINT2.toVector s = XMLoadSInt2 s.toXMINT2)
    ∧ (∀ (s : MXMUINT2) (v : XMVECTOR),
      (MXMUINT2.assign s v).toXMUINT2 = XMStoreUInt2 v)
    ∧ (∀ v : XMVECTOR, (MXMUINT2.ofVector v).toXMUINT2 = XMStoreUInt2 v)
    ∧ (∀ s : MXMUINT2, MXMUINT2.toVector s = XMLoadUInt2 s.toXMUINT2)
    ∧ (∀ (s : MXMFLOAT3) (v : XMVECTOR),
      (MXMFLOAT3.assign s v).toXMFLOAT3 = XMStoreFloat3 v)
    ∧ (∀ v : XMVECTOR, (MXMFLOAT3.ofVector v).toXMFLOAT3 = XMStoreFloat3 v)
    ∧ (∀ s : MXMFLOAT3, MXMFLOAT3.toVector s = XMLoadFloat3 s.toXMFLOAT3)
    ∧ (∀ (s : MXMFLOAT3A) (v : XMVECTOR),
      (MXMFLOAT3A.assign s v).toXMFLOAT3A = XMStoreFloat3A v)
    ∧ (∀ v : XMVECTOR, (MXMFLOAT3A.ofVector v).toXMFLOAT3A = XMStoreFloat3A v)
    ∧ (∀ s : MXMFLOAT3A, MXMFLOAT3A.toVector s = XMLoadFloat3A s.toXMFLOAT3A)
    ∧ (∀ (s : MXMINT3) (v : XMVECTOR),
      (MXMINT3.assign s v).toXMINT3 = XMStoreSInt3 v)
    ∧ (∀ v : XMVECTOR, (MXMINT3.ofVector v).toXMINT3 = XMStoreSInt3 v)
    ∧ (∀ s : MXMINT3, MXMINT3.toVector s = XMLoadSInt3 s.toXMINT3)
    ∧ (∀ (s : MXMUINT3) (v : XMVECTOR),
      (MXMUINT3.assign s v).toXMUINT3 = XMStoreUInt3 v)
    ∧ (∀ v : XMVECTOR, (MXMUINT3.ofVector v).toXMUINT3 = XMStoreUInt3 v)
    ∧ (∀ s : MXMUINT3, MXMUINT3.toVector s = XMLoadUInt3 s.toXMUINT3)
    ∧ (∀ (s : MXMFLOAT4) (v : XMVECTOR),
      (MXMFLOAT4.assign s v).toXMFLOAT4 = XMStoreFloat4 v)
    ∧ (∀ v : XMVECTOR, (MXMFLOAT4.ofVector v).toXMFLOAT4 = XMStoreFloat4 v)
    ∧ (∀ s : MXMFLOAT4, MXMFLOAT4.toVector s = XMLoadFloat4 s.toXMFLOAT4)
    ∧ (∀ (s : MXMFLOAT4A) (v : XMVECTOR),
      (MXMFLOAT4A.assign s v).toXMFLOAT4A = XMStoreFloat4A v)
    ∧ (∀ v : XMVECTOR, (MXMFLOAT4A.ofVector v).toXMFLOAT4A = XMStoreFloat4A v)
    ∧ (∀ s : MXMFLOAT4A, MXMFLOAT4A.toVector s = XMLoadFloat4A s.toXMFLOAT4A)
    ∧ (∀ (s : MXMINT4) (v : XMVECTOR),
      (MXMINT4.assign s v).toXMINT4 = XMStoreSInt4 v)
    ∧ (∀ v : XMVECTOR, (MXMINT4.ofVector v).toXMINT4 = XMStoreSInt4 v)
    ∧ (∀ s : MXMINT4, MXMINT4.toVector s = XMLoadSInt4 s.toXMINT4)
    ∧ (∀ (s : MXMUINT4) (v : XMVECTOR),
      (MXMUINT4.assign s v).toXMUINT4 = XMStoreUInt4 v)
    ∧ (∀ v : XMVECTOR, (MXMUINT4.ofVector v).toXMUINT4 = XMStoreUInt4 v)
    ∧ (∀ s : MXMUINT4, MXMUINT4.toVector s = XMLoadUInt4 s.toXMUINT4)
    ∧ (∀ (s : MXMFLOAT3X3) (m : XMMATRIX),
      (MXMFLOAT3X3.assign s m).toXMFLOAT3X3 = XMStoreFloat3x3 m)
    ∧ (∀ m : XMMATRIX,
      (MXMFLOAT3X3.ofMatrix m).toXMFLOAT3X3 = XMStoreFloat3x3 m)
    ∧ (∀ s : MXMFLOAT3X3,
      MXMFLOAT3X3.toMatrix s = XMLoadFloat3x3 s.toXMFLOAT3X3)
    ∧ (∀ (s : MXMFLOAT4X3) (m : XMMATRIX),
      (MXMFLOAT4X3.assign s m).toXMFLOAT4X3 = XMStoreFloat4x3 m)
    ∧ (∀ m : XMMATRIX,
      (MXMFLOAT4X3.ofMatrix m).toXMFLOAT4X3 = XMStoreFloat4x3 m)
    ∧ (∀ s : MXMFLOAT4X3,
      MXMFLOAT4X3.toMatrix s = XMLoadFloat4x3 s.toXMFLOAT4X3)
    ∧ (∀ (s : MXMFLOAT4X3A) (m : XMMATRIX),
      (MXMFLOAT4X3A.assign s m).toXMFLOAT4X3A = XMStoreFloat4x3A m)
    ∧ (∀ m : XMMATRIX,
      (MXMFLOAT4X3A.ofMatrix m).toXMFLOAT4X3A = XMStoreFloat4x3A m)
    ∧ (∀ s : MXMFLOAT4X3A,
      MXMFLOAT4X3A.toMatrix s = XMLoadFloat4x3A s.toXMFLOAT4X3A)
    ∧ (∀ (s : MXMFLOAT4X4) (m : XMMATRIX),
      (MXMFLOAT4X4.assign s m).toXMFLOAT4X4 = XMStoreFloat4x4 m)
    ∧ (∀ m : XMMATRIX,
      (MXMFLOAT4X4.ofMatrix m).toXMFLOAT4X4 = XMStoreFloat4x4 m)
    ∧ (∀ s : MXMFLOAT4X4,
      MXMFLOAT4X4.toMatrix s = XMLoadFloat4x4 s.toXMFLOAT4X4)
    ∧ (∀ (s : MXMFLOAT4X4A) (m : XMMATRIX),
      (MXMFLOAT4X4A.assign s m).toXMFLOAT4X4A = XMStoreFloat4x4A m)
    ∧ (∀ m : XMMATRIX,
      (MXMFLOAT4X4A.ofMatrix m).toXMFLOAT4X4A = XMStoreFloat4x4A m)
    ∧ (∀ s : MXMFLOAT4X4A,
      MXMFLOAT4X4A.toMatrix s = XMLoadFloat4x4A s.toXMFLOAT4X4A) := by
  repeat' apply And.intro
  all_goals (intros; rfl)

/-- Claim C2, counterexample: the operation `MXMMatrixAbs` defined by the
repository is not a one-line forwarding call to any load or store routine of
the wrapped library — its body is four calls to `XMVectorAbs`, which is
neither a load nor a store routine. -/
theorem mxm_C2_counterexample_matrixAbs :
    ¬ ∃ r : LibRoutineName,
      forwardsTo RepoOp.matrixAbs = ForwardTarget.routine r
        ∧ r.isLoadOrStore = true := by
  decide

/-- Claim C2, amended, stated pointwise per class of member: for every
wrapper type, the SIMD converting constructor is a one-line forwarding call
to that type's store routine, the conversion operator to that type's load
routine, and the SIMD assignment operator to that type's store routine (all
of which are load/store routines); each of the three remaining constructors
forwards to the base type's constructor; and the single remaining operation,
`MXMMatrixAbs`, is four calls to the library's `XMVectorAbs`, one per row,
delegating all floating-point computation to it.  Together with the
exhaustiveness of `RepoOp`, this classifies every operation the repository
defines. -/
theorem mxm_C2_amended_forwarding_shape :
    (∀ t : MXMTypeName,
      forwardsTo (RepoOp.member t MemberOp.simdCtor)
          = ForwardTarget.routine (LibRoutineName.store t)
        ∧ forwardsTo (RepoOp.member t MemberOp.simdConv)
          = ForwardTarget.routine (LibRoutineName.load t)
        ∧ forwardsTo (RepoOp.member t MemberOp.simdAssign)
          = ForwardTarget.routine (LibRoutineName.store t)
        ∧ (LibRoutineName.store t).isLoadOrStore = true
        ∧ (LibRoutineName.load t).isLoadOrStore = true
        ∧ forwardsTo (RepoOp.member t MemberOp.defaultCtor)
          = ForwardTarget.baseCtor
        ∧ forwardsTo (RepoOp.member t MemberOp.componentCtor)
          = ForwardTarget.baseCtor
        ∧ forwardsTo (RepoOp.member t MemberOp.arrayCtor)
          = ForwardTarget.baseCtor)
    ∧ forwardsTo RepoOp.matrixAbs
        = ForwardTarget.calls
            [LibRoutineName.vectorAbs, LibRoutineName.vectorAbs,
             LibRoutineName.vectorAbs, LibRoutineName.vectorAbs]
    ∧ (∀ m : XMMATRIX,
      MXMMatrixAbs m = XMMATRIX.mk (XMVectorAbs m.r0) (XMVectorAbs m.r1)
        (XMVectorAbs m.r2) (XMVectorAbs m.r3)) :=
  ⟨fun t => ⟨rfl, rfl, rfl, rfl, rfl, rfl, rfl, rfl⟩, rfl, fun m => rfl⟩

/-- Claim C3, counterexample: conversion is not transparent in both
directions for every wrapper type.  Storing the SIMD value with lane bit
patterns `(1, 2, 3, 4)` into an `MXMFLOAT2` and converting back yields
`(1, 2, 0, 0)`, not the original value (the load zero-fills the unused
lanes); and an `MXMINT2` holding `x = 16777217 = 2^24 + 1` does not survive
converting to SIMD and assigning back (the int-to-float conversion rounds
to `16777216`). -/
theorem mxm_C3_counterexample_roundtrip :
    MXMFLOAT2.toVector (MXMFLOAT2.ofVector ⟨1, 2, 3, 4⟩) ≠ ⟨1, 2, 3, 4⟩
    ∧ MXMINT2.assign (MXMINT2.mk ⟨16777217, 0⟩)
        (MXMINT2.toVector (MXMINT2.mk ⟨16777217, 0⟩))
      ≠ MXMINT2.mk ⟨16777217, 0⟩ := by
  constructor
  · decide
  · decide

/-- Claim C3, amended: for every float-component wrapper type, converting a
wrapper object to its SIMD representation and assigning that SIMD value back
leaves the object's stored components unchanged; and for the full-width
float types (`MXMFLOAT4`, `MXMFLOAT4A`, `MXMFLOAT4X4`, `MXMFLOAT4X4A`)
storing a SIMD value into a wrapper object and converting the object back
yields the original SIMD value.  (The narrower types drop the unused lanes
on that direction, and the integer wrappers convert through float32, losing
precision beyond `2^24`.) -/
theorem mxm_C3_amended_roundtrip :
    (∀ s : MXMFLOAT2, MXMFLOAT2.assign s (MXMFLOAT2.toVector s) = s)
    ∧ (∀ s : MXMFLOAT2A, MXMFLOAT2A.assign s (MXMFLOAT2A.toVector s) = s)
    ∧ (∀ s : MXMFLOAT3, MXMFLOAT3.assign s (MXMFLOAT3.toVector s) = s)
    ∧ (∀ s : MXMFLOAT3A, MXMFLOAT3A.assign s (MXMFLOAT3A.toVector s) = s)
    ∧ (∀ s : MXMFLOAT4, MXMFLOAT4.assign s (MXMFLOAT4.toVector s) = s)
    ∧ (∀ s : MXMFLOAT4A, MXMFLOAT4A.assign s (MXMFLOAT4A.toVector s) = s)
    ∧ (∀ s : MXMFLOAT3X3,
      MXMFLOAT3X3.assign s (MXMFLOAT3X3.toMatrix s) = s)
    ∧ (∀ s : MXMFLOAT4X3,
      MXMFLOAT4X3.assign s (MXMFLOAT4X3.toMatrix s) = s)
    ∧ (∀ s : MXMFLOAT4X3A,
      MXMFLOAT4X3A.assign s (MXMFLOAT4X3A.toMatrix s) = s)
    ∧ (∀ s : MXMFLOAT4X4,
      MXMFLOAT4X4.assign s (MXMFLOAT4X4.toMatrix s) = s)
    ∧ (∀ s : MXMFLOAT4X4A,
      MXMFLOAT4X4A.assign s (MXMFLOAT4X4A.toMatrix s) = s)
    ∧ (∀ v : XMVECTOR, MXMFLOAT4.toVector (MXMFLOAT4.ofVector v) = v)
    ∧ (∀ v : XMVECTOR, MXMFLOAT4A.toVector (MXMFLOAT4A.ofVector v) = v)
    ∧ (∀ m : XMMATRIX, MXMFLOAT4X4.toMatrix (MXMFLOAT4X4.ofMatrix m) = m)
    ∧ (∀ m : XMMATRIX,
      MXMFLOAT4X4A.toMatrix (MXMFLOAT4X4A.ofMatrix m) = m) := by
  repeat' apply And.intro
  all_goals (intros; rfl)

/-- Claim C4: under `_MXM_USE_OVERWRITE_DEFINES`, each of the seventeen
covered memory-type names of the underlying library is redefined to its
corresponding M-prefixed wrapper type, covering each wrapper type exactly
once (the define block, transcribed as `overwriteDefine` over exactly these
seventeen names, agrees with the name correspondence and is a one-to-one
cover of the wrapper names). -/
theorem mxm_C4_overwrite_defines_cover :
    (∀ n : DXTypeName, overwriteDefine n = wrapperOf n)
    ∧ (∀ w : MXMTypeName, ∃ n : DXTypeName, overwriteDefine n = w)
    ∧ (∀ n₁ n₂ : DXTypeName,
      overwriteDefine n₁ = overwriteDefine n₂ → n₁ = n₂) := by
  refine ⟨by decide, by decide, by decide⟩

/-- Witness for claim C4, instantiating the cover property at a concrete
name and discharging the injectivity hypothesis at concrete inputs. -/
theorem mxm_C4_overwrite_defines_cover_witness :
    overwriteDefine DXTypeName.xmfloat4 = wrapperOf DXTypeName.xmfloat4
    ∧ DXTypeName.xmfloat4 = DXTypeName.xmfloat4 :=
  ⟨mxm_C4_overwrite_defines_cover.1 DXTypeName.xmfloat4,
   mxm_C4_overwrite_defines_cover.2.2 DXTypeName.xmfloat4
     DXTypeName.xmfloat4 (by decide)⟩

/-- Claim C5: every wrapper type adds no data members to the library type it
derives from — projecting a wrapper value to its base type is a bijection,
so every wrapper value is determined by (and bit-identical to) a value of
its base type. -/
theorem mxm_C5_wrappers_add_no_state :
    Function.Bijective MXMFLOAT2.toXMFLOAT2
    ∧ Function.Bijective MXMFLOAT2A.toXMFLOAT2A
    ∧ Function.Bijective MXMINT2.toXMINT2
    ∧ Function.Bijective MXMUINT2.toXMUINT2
    ∧ Function.Bijective MXMFLOAT3.toXMFLOAT3
    ∧ Function.Bijective MXMFLOAT3A.toXMFLOAT3A
    ∧ Function.Bijective MXMINT3.toXMINT3
    ∧ Function.Bijective MXMUINT3.toXMUINT3
    ∧ Function.Bijective MXMFLOAT4.toXMFLOAT4
    ∧ Function.Bijective MXMFLOAT4A.toXMFLOAT4A
    ∧ Function.Bijective MXMINT4.toXMINT4
    ∧ Function.Bijective MXMUINT4.toXMUINT4
    ∧ Function.Bijective MXMFLOAT3X3.toXMFLOAT3X3
    ∧ Function.Bijective MXMFLOAT4X3.toXMFLOAT4X3
    ∧ Function.Bijective MXMFLOAT4X3A.toXMFLOAT4X3A
    ∧ Function.Bijective MXMFLOAT4X4.toXMFLOAT4X4
    ∧ Function.Bijective MXMFLOAT4X4A.toXMFLOAT4X4A := by
  repeat' apply And.intro
  all_goals
    first
      | (intro a b h; cases a; cases b; cases h; rfl)
      | (intro b; exact ⟨⟨b⟩, rfl⟩)

/-- Claim C6: no operation of the wrapper can fail.  Each body, translated
into an error monad over an arbitrary fallible version of the routine(s) it
forwards to, fails exactly when a forwarded call fails, so no operation
introduces a fallible step or error branch of its own: this covers the
bodies forwarding to a store routine (SIMD constructor), a load routine
(conversion operator), a store routine plus `return *this` (assignment
operator), the base type's constructor (default, component-wise and array
constructors), and the four `XMVectorAbs` calls of `MXMMatrixAbs`.
Instantiated at the library's (total) routines with the uninhabited error
type, every constructor (default, component-wise, array and SIMD), the
conversion operator and the assignment operator of every wrapper type, and
`MXMMatrixAbs`, succeed on every input with the value of the pure
operation (for the default constructor, whatever indeterminate base state
`b` the base constructor yields). -/
theorem mxm_C6_no_fallible_steps :
    (∀ (E M V W : Type) (mk : M → W) (st : V → Except E M) (v : V),
      exOk (fwdStoreCtorE mk st v) = exOk (st v))
    ∧ (∀ (E M V W : Type) (base : W → M) (ld : M → Except E V) (s : W),
      exOk (fwdLoadConvE base ld s) = exOk (ld (base s)))
    ∧ (∀ (E M V W : Type) (mk : M → W) (st : V → Except E M) (s : W) (v : V),
      exOk (fwdStoreAssignE mk st s v) = exOk (st v))
    ∧ (∀ (E A M W : Type) (mk : M → W) (bc : A → Except E M) (a : A),
      exOk (fwdBaseCtorE mk bc a) = exOk (bc a))
    ∧ (∀ (E : Type) (vA : XMVECTOR → Except E XMVECTOR) (mat : XMMATRIX),
      exOk (mxmMatrixAbsE vA mat)
        = (exOk (vA mat.r0) && exOk (vA mat.r1)
            && exOk (vA mat.r2) && exOk (vA mat.r3)))
    ∧ (∀ b : XMFLOAT2,
      fwdBaseCtorE MXMFLOAT2.mk (pureRoutineE (fun c : XMFLOAT2 => c)) b
        = Except.ok (MXMFLOAT2.mk b))
    ∧ (∀ a b : Nat,
      fwdBaseCtorE MXMFLOAT2.mk
        (pureRoutineE (fun ((a, b) : Nat × Nat) => XMFLOAT2.mk a b))
        (a, b)
        = Except.ok (MXMFLOAT2.mk (XMFLOAT2.mk a b)))
    ∧ (∀ p : Nat → Nat,
      fwdBaseCtorE MXMFLOAT2.mk (pureRoutineE XMFLOAT2.ofArray) p
        = Except.ok (MXMFLOAT2.mk (XMFLOAT2.ofArray p)))
    ∧ (∀ v : XMVECTOR,
      fwdStoreCtorE MXMFLOAT2.mk (pureRoutineE XMStoreFloat2) v
        = Except.ok (MXMFLOAT2.ofVector v))
    ∧ (∀ s : MXMFLOAT2,
      fwdLoadConvE MXMFLOAT2.toXMFLOAT2 (pureRoutineE XMLoadFloat2) s
        = Except.ok (MXMFLOAT2.toVector s))
    ∧ (∀ (s : MXMFLOAT2) (v : XMVECTOR),
      fwdStoreAssignE MXMFLOAT2.mk (pureRoutineE XMStoreFloat2) s v
        = Except.ok (MXMFLOAT2.assign s v))
    ∧ (∀ b : XMFLOAT2A,
      fwdBaseCtorE MXMFLOAT2A.mk (pureRoutineE (fun c : XMFLOAT2A => c)) b
        = Except.ok (MXMFLOAT2A.mk b))
    ∧ (∀ a b : Nat,
      fwdBaseCtorE MXMFLOAT2A.mk
        (pureRoutineE (fun ((a, b) : Nat × Nat) => XMFLOAT2A.mk a b))
        (a, b)
        = Except.ok (MXMFLOAT2A.mk (XMFLOAT2A.mk a b)))
    ∧ (∀ p : Nat → Nat,
      fwdBaseCtorE MXMFLOAT2A.mk (pureRoutineE XMFLOAT2A.ofArray) p
        = Except.ok (MXMFLOAT2A.mk (XMFLOAT2A.ofArray p)))
    ∧ (∀ v : XMVECTOR,
      fwdStoreCtorE MXMFLOAT2A.mk (pureRoutineE XMStoreFloat2A) v
        = Except.ok (MXMFLOAT2A.ofVector v))
    ∧ (∀ s : MXMFLOAT2A,
      fwdLoadConvE MXMFLOAT2A.toXMFLOAT2A (pureRoutineE XMLoadFloat2A) s
        = Except.ok (MXMFLOAT2A.toVector s))
    ∧ (∀ (s : MXMFLOAT2A) (v : XMVECTOR),
      fwdStoreAssignE MXMFLOAT2A.mk (pureRoutineE XMStoreFloat2A) s v
        = Except.ok (MXMFLOAT2A.assign s v))
    ∧ (∀ b : XMINT2,
      fwdBaseCtorE MXMINT2.mk (pureRoutineE (fun c : XMINT2 => c)) b
        = Except.ok (MXMINT2.mk b))
    ∧ (∀ a b : Int,
      fwdBaseCtorE MXMINT2.mk
        (pureRoutineE (fun ((a, b) : Int × Int) => XMINT2.mk a b))
        (a, b)
        = Except.ok (MXMINT2.mk (XMINT2.mk a b)))
    ∧ (∀ p : Nat → Int,
      fwdBaseCtorE MXMINT2.mk (pureRoutineE XMINT2.ofArray) p
        = Except.ok (MXMINT2.mk (XMINT2.ofArray p)))
    ∧ (∀ v : XMVECTOR,
      fwdStoreCtorE MXMINT2.mk (pureRoutineE XMStoreSInt2) v
        = Except.ok (MXMINT2.ofVector v))
    ∧ (∀ s : MXMINT2,
      fwdLoadConvE MXMINT2.toXMINT2 (pureRoutineE XMLoadSInt2) s
        = Except.ok (MXMINT2.toVector s))
    ∧ (∀ (s : MXMINT2) (v : XMVECTOR),
      fwdStoreAssignE MXMINT2.mk (pureRoutineE XMStoreSInt2) s v
        = Except.ok (MXMINT2.assign s v))
    ∧ (∀ b : XMUINT2,
      fwdBaseCtorE MXMUINT2.mk (pureRoutineE (fun c : XMUINT2 => c)) b
        = Except.ok (MXMUINT2.mk b))
    ∧ (∀ a b : Nat,
      fwdBaseCtorE MXMUINT2.mk
        (pureRoutineE (fun ((a, b) : Nat × Nat) => XMUINT2.mk a b))
        (a, b)
        = Except.ok (MXMUINT2.mk (XMUINT2.mk a b)))
    ∧ (∀ p : Nat → Nat,
      fwdBaseCtorE MXMUINT2.mk (pureRoutineE XMUINT2.ofArray) p
        = Except.ok (MXMUINT2.mk (XMUINT2.ofArray p)))
    ∧ (∀ v : XMVECTOR,
      fwdStoreCtorE MXMUINT2.mk (pureRoutineE XMStoreUInt2) v
        = Except.ok (MXMUINT2.ofVector v))
    ∧ (∀ s : MXMUINT2,
      fwdLoadConvE MXMUINT2.toXMUINT2 (pureRoutineE XMLoadUInt2) s
        = Except.ok (MXMUINT2.toVector s))
    ∧ (∀ (s : MXMUINT2) (v : XMVECTOR),
      fwdStoreAssignE MXMUINT2.mk (pureRoutineE XMStoreUInt2) s v
        = Except.ok (MXMUINT2.assign s v))
    ∧ (∀ b : XMFLOAT3,
      fwdBaseCtorE MXMFLOAT3.mk (pureRoutineE (fun c : XMFLOAT3 => c)) b
        = Except.ok (MXMFLOAT3.mk b))
    ∧ (∀ a b c : Nat,
      fwdBaseCtorE MXMFLOAT3.mk
        (pureRoutineE (fun ((a, b, c) : Nat × Nat × Nat) => XMFLOAT3.mk a b c))
        (a, b, c)
        = Except.ok (MXMFLOAT3.mk (XMFLOAT3.mk a b c)))
    ∧ (∀ p : Nat → Nat,
      fwdBaseCtorE MXMFLOAT3.mk (pureRoutineE XMFLOAT3.ofArray) p
        = Except.ok (MXMFLOAT3.mk (XMFLOAT3.ofArray p)))
    ∧ (∀ v : XMVECTOR,
      fwdStoreCtorE MXMFLOAT3.mk (pureRoutineE XMStoreFloat3) v
        = Except.ok (MXMFLOAT3.ofVector v))
    ∧ (∀ s : MXMFLOAT3,
      fwdLoadConvE MXMFLOAT3.toXMFLOAT3 (pureRoutineE XMLoadFloat3) s
        = Except.ok (MXMFLOAT3.toVector s))
    ∧ (∀ (s : MXMFLOAT3) (v : XMVECTOR),
      fwdStoreAssignE MXMFLOAT3.mk (pureRoutineE XMStoreFloat3) s v
        = Except.ok (MXMFLOAT3.assign s v))
    ∧ (∀ b : XMFLOAT3A,
      fwdBaseCtorE MXMFLOAT3A.mk (pureRoutineE (fun c : XMFLOAT3A => c)) b
        = Except.ok (MXMFLOAT3A.mk b))
    ∧ (∀ a b c : Nat,
      fwdBaseCtorE MXMFLOAT3A.mk
        (pureRoutineE (fun ((a, b, c) : Nat × Nat × Nat) => XMFLOAT3A.mk a b c))
        (a, b, c)
        = Except.ok (MXMFLOAT3A.mk (XMFLOAT3A.mk a b c)))
    ∧ (∀ p : Nat → Nat,
      fwdBaseCtorE MXMFLOAT3A.mk (pureRoutineE XMFLOAT3A.ofArray) p
        = Except.ok (MXMFLOAT3A.mk (XMFLOAT3A.ofArray p)))
    ∧ (∀ v : XMVECTOR,
      fwdStoreCtorE MXMFLOAT3A.mk (pureRoutineE XMStoreFloat3A) v
        = Except.ok (MXMFLOAT3A.ofVector v))
    ∧ (∀ s : MXMFLOAT3A,
      fwdLoadConvE MXMFLOAT3A.toXMFLOAT3A (pureRoutineE XMLoadFloat3A) s
        = Except.ok (MXMFLOAT3A.toVector s))
    ∧ (∀ (s : MXMFLOAT3A) (v : XMVECTOR),
      fwdStoreAssignE MXMFLOAT3A.mk (pureRoutineE XMStoreFloat3A) s v
        = Except.ok (MXMFLOAT3A.assign s v))
    ∧ (∀ b : XMINT3,
      fwdBaseCtorE MXMINT3.mk (pureRoutineE (fun c : XMINT3 => c)) b
        = Except.ok (MXMINT3.mk b))
    ∧ (∀ a b c : Int,
      fwdBaseCtorE MXMINT3.mk
        (pureRoutineE (fun ((a, b, c) : Int × Int × Int) => XMINT3.mk a b c))
        (a, b, c)
        = Except.ok (MXMINT3.mk (XMINT3.mk a b c)))
    ∧ (∀ p : Nat → Int,
      fwdBaseCtorE MXMINT3.mk (pureRoutineE XMINT3.ofArray) p
        = Except.ok (MXMINT3.mk (XMINT3.ofArray p)))
    ∧ (∀ v : XMVECTOR,
      fwdStoreCtorE MXMINT3.mk (pureRoutineE XMStoreSInt3) v
        = Except.ok (MXMINT3.ofVector v))
    ∧ (∀ s : MXMINT3,
      fwdLoadConvE MXMINT3.toXMINT3 (pureRoutineE XMLoadSInt3) s
        = Except.ok (MXMINT3.toVector s))
    ∧ (∀ (s : MXMINT3) (v : XMVECTOR),
      fwdStoreAssignE MXMINT3.mk (pureRoutineE XMStoreSInt3) s v
        = Except.ok (MXMINT3.assign s v))
    ∧ (∀ b : XMUINT3,
      fwdBaseCtorE MXMUINT3.mk (pureRoutineE (fun c : XMUINT3 => c)) b
        = Except.ok (MXMUINT3.mk b))
    ∧ (∀ a b c : Nat,
      fwdBaseCtorE MXMUINT3.mk
        (pureRoutineE (fun ((a, b, c) : Nat × Nat × Nat) => XMUINT3.mk a b c))
        (a, b, c)
        = Except.ok (MXMUINT3.mk (XMUINT3.mk a b c)))
    ∧ (∀ p : Nat → Nat,
      fwdBaseCtorE MXMUINT3.mk (pureRoutineE XMUINT3.ofArray) p
        = Except.ok (MXMUINT3.mk (XMUINT3.ofArray p)))
    ∧ (∀ v : XMVECTOR,
      fwdStoreCtorE MXMUINT3.mk (pureRoutineE XMStoreUInt3) v
        = Except.ok (MXMUINT3.ofVector v))
    ∧ (∀ s : MXMUINT3,
      fwdLoadConvE MXMUINT3.toXMUINT3 (pureRoutineE XMLoadUInt3) s
        = Except.ok (MXMUINT3.toVector s))
    ∧ (∀ (s : MXMUINT3) (v : XMVECTOR),
      fwdStoreAssignE MXMUINT3.mk (pureRoutineE XMStoreUInt3) s v
        = Except.ok (MXMUINT3.assign s v))
    ∧ (∀ b : XMFLOAT4,
      fwdBaseCtorE MXMFLOAT4.mk (pureRoutineE (fun c : XMFLOAT4 => c)) b
        = Except.ok (MXMFLOAT4.mk b))
    ∧ (∀ a b c d : Nat,
      fwdBaseCtorE MXMFLOAT4.mk
        (pureRoutineE (fun ((a, b, c, d) : Nat × Nat × Nat × Nat) => XMFLOAT4.mk a b c d))
        (a, b, c, d)
        = Except.ok (MXMFLOAT4.mk (XMFLOAT4.mk a b c d)))
    ∧ (∀ p : Nat → Nat,
      fwdBaseCtorE MXMFLOAT4.mk (pureRoutineE XMFLOAT4.ofArray) p
        = Except.ok (MXMFLOAT4.mk (XMFLOAT4.ofArray p)))
    ∧ (∀ v : XMVECTOR,
      fwdStoreCtorE MXMFLOAT4.mk (pureRoutineE XMStoreFloat4) v
        = Except.ok (MXMFLOAT4.ofVector v))
    ∧ (∀ s : MXMFLOAT4,
      fwdLoadConvE MXMFLOAT4.toXMFLOAT4 (pureRoutineE XMLoadFloat4) s
        = Except.ok (MXMFLOAT4.toVector s))
    ∧ (∀ (s : MXMFLOAT4) (v : XMVECTOR),
      fwdStoreAssignE MXMFLOAT4.mk (pureRoutineE XMStoreFloat4) s v
        = Except.ok (MXMFLOAT4.assign s v))
    ∧ (∀ b : XMFLOAT4A,
      fwdBaseCtorE MXMFLOAT4A.mk (pureRoutineE (fun c : XMFLOAT4A => c)) b
        = Except.ok (MXMFLOAT4A.mk b))
    ∧ (∀ a b c d : Nat,
      fwdBaseCtorE MXMFLOAT4A.mk
        (pureRoutineE (fun ((a, b, c, d) : Nat × Nat × Nat × Nat) => XMFLOAT4A.mk a b c d))
        (a, b, c, d)
        = Except.ok (MXMFLOAT4A.mk (XMFLOAT4A.mk a b c d)))
    ∧ (∀ p : Nat → Nat,
      fwdBaseCtorE MXMFLOAT4A.mk (pureRoutineE XMFLOAT4A.ofArray) p
        = Except.ok (MXMFLOAT4A.mk (XMFLOAT4A.ofArray p)))
    ∧ (∀ v : XMVECTOR,
      fwdStoreCtorE MXMFLOAT4A.mk (pureRoutineE XMStoreFloat4A) v
        = Except.ok (MXMFLOAT4A.ofVector v))
    ∧ (∀ s : MXMFLOAT4A,
      fwdLoadConvE MXMFLOAT4A.toXMFLOAT4A (pureRoutineE XMLoadFloat4A) s
        = Except.ok (MXMFLOAT4A.toVector s))
    ∧ (∀ (s : MXMFLOAT4A) (v : XMVECTOR),
      fwdStoreAssignE MXMFLOAT4A.mk (pureRoutineE XMStoreFloat4A) s v
        = Except.ok (MXMFLOAT4A.assign s v))
    ∧ (∀ b : XMINT4,
      fwdBaseCtorE MXMINT4.mk (pureRoutineE (fun c : XMINT4 => c)) b
        = Except.ok (MXMINT4.mk b))
    ∧ (∀ a b c d : Int,
      fwdBaseCtorE MXMINT4.mk
        (pureRoutineE (fun ((a, b, c, d) : Int × Int × Int × Int) => XMINT4.mk a b c d))
        (a, b, c, d)
        = Except.ok (MXMINT4.mk (XMINT4.mk a b c d)))
    ∧ (∀ p : Nat → Int,
      fwdBaseCtorE MXMINT4.mk (pureRoutineE XMINT4.ofArray) p
        = Except.ok (MXMINT4.mk (XMINT4.ofArray p)))
    ∧ (∀ v : XMVECTOR,
      fwdStoreCtorE MXMINT4.mk (pureRoutineE XMStoreSInt4) v
        = Except.ok (MXMINT4.ofVector v))
    ∧ (∀ s : MXMINT4,
      fwdLoadConvE MXMINT4.toXMINT4 (pureRoutineE XMLoadSInt4) s
        = Except.ok (MXMINT4.toVector s))
    ∧ (∀ (s : MXMINT4) (v : XMVECTOR),
      fwdStoreAssignE MXMINT4.mk (pureRoutineE XMStoreSInt4) s v
        = Except.ok (MXMINT4.assign s v))
    ∧ (∀ b : XMUINT4,
      fwdBaseCtorE MXMUINT4.mk (pureRoutineE (fun c : XMUINT4 => c)) b
        = Except.ok (MXMUINT4.mk b))
    ∧ (∀ a b c d : Nat,
      fwdBaseCtorE MXMUINT4.mk
        (pureRoutineE (fun ((a, b, c, d) : Nat × Nat × Nat × Nat) => XMUINT4.mk a b c d))
        (a, b, c, d)
        = Except.ok (MXMUINT4.mk (XMUINT4.mk a b c d)))
    ∧ (∀ p : Nat → Nat,
      fwdBaseCtorE MXMUINT4.mk (pureRoutineE XMUINT4.ofArray) p
        = Except.ok (MXMUINT4.mk (XMUINT4.ofArray p)))
    ∧ (∀ v : XMVECTOR,
      fwdStoreCtorE MXMUINT4.mk (pureRoutineE XMStoreUInt4) v
        = Except.ok (MXMUINT4.ofVector v))
    ∧ (∀ s : MXMUINT4,
      fwdLoadConvE MXMUINT4.toXMUINT4 (pureRoutineE XMLoadUInt4) s
        = Except.ok (MXMUINT4.toVector s))
    ∧ (∀ (s : MXMUINT4) (v : XMVECTOR),
      fwdStoreAssignE MXMUINT4.mk (pureRoutineE XMStoreUInt4) s v
        = Except.ok (MXMUINT4.assign s v))
    ∧ (∀ b : XMFLOAT3X3,
      fwdBaseCtorE MXMFLOAT3X3.mk (pureRoutineE (fun c : XMFLOAT3X3 => c)) b
        = Except.ok (MXMFLOAT3X3.mk b))
    ∧ (∀ a b c d e f g h i : Nat,
      fwdBaseCtorE MXMFLOAT3X3.mk
        (pureRoutineE (fun ((a, b, c, d, e, f, g, h, i) : Nat × Nat × Nat × Nat × Nat × Nat × Nat × Nat × Nat) => XMFLOAT3X3.mk a b c d e f g h i))
        (a, b, c, d, e, f, g, h, i)
        = Except.ok (MXMFLOAT3X3.mk (XMFLOAT3X3.mk a b c d e f g h i)))
    ∧ (∀ p : Nat → Nat,
      fwdBaseCtorE MXMFLOAT3X3.mk (pureRoutineE XMFLOAT3X3.ofArray) p
        = Except.ok (MXMFLOAT3X3.mk (XMFLOAT3X3.ofArray p)))
    ∧ (∀ m : XMMATRIX,
      fwdStoreCtorE MXMFLOAT3X3.mk (pureRoutineE XMStoreFloat3x3) m
        = Except.ok (MXMFLOAT3X3.ofMatrix m))
    ∧ (∀ s : MXMFLOAT3X3,
      fwdLoadConvE MXMFLOAT3X3.toXMFLOAT3X3 (pureRoutineE XMLoadFloat3x3) s
        = Except.ok (MXMFLOAT3X3.toMatrix s))
    ∧ (∀ (s : MXMFLOAT3X3) (m : XMMATRIX),
      fwdStoreAssignE MXMFLOAT3X3.mk (pureRoutineE XMStoreFloat3x3) s m
        = Except.ok (MXMFLOAT3X3.assign s m))
    ∧ (∀ b : XMFLOAT4X3,
      fwdBaseCtorE MXMFLOAT4X3.mk (pureRoutineE (fun c : XMFLOAT4X3 => c)) b
        = Except.ok (MXMFLOAT4X3.mk b))
    ∧ (∀ a b c d e f g h i j k l : Nat,
      fwdBaseCtorE MXMFLOAT4X3.mk
        (pureRoutineE (fun ((a, b, c, d, e, f, g, h, i, j, k, l) : Nat × Nat × Nat × Nat × Nat × Nat × Nat × Nat × Nat × Nat × Nat × Nat) => XMFLOAT4X3.mk a b c d e f g h i j k l))
        (a, b, c, d, e, f, g, h, i, j, k, l)
        = Except.ok (MXMFLOAT4X3.mk (XMFLOAT4X3.mk a b c d e f g h i j k l)))
    ∧ (∀ p : Nat → Nat,
      fwdBaseCtorE MXMFLOAT4X3.mk (pureRoutineE XMFLOAT4X3.ofArray) p
        = Except.ok (MXMFLOAT4X3.mk (XMFLOAT4X3.ofArray p)))
    ∧ (∀ m : XMMATRIX,
      fwdStoreCtorE MXMFLOAT4X3.mk (pureRoutineE XMStoreFloat4x3) m
        = Except.ok (MXMFLOAT4X3.ofMatrix m))
    ∧ (∀ s : MXMFLOAT4X3,
      fwdLoadConvE MXMFLOAT4X3.toXMFLOAT4X3 (pureRoutineE XMLoadFloat4x3) s
        = Except.ok (MXMFLOAT4X3.toMatrix s))
    ∧ (∀ (s : MXMFLOAT4X3) (m : XMMATRIX),
      fwdStoreAssignE MXMFLOAT4X3.mk (pureRoutineE XMStoreFloat4x3) s m
        = Except.ok (MXMFLOAT4X3.assign s m))
    ∧ (∀ b : XMFLOAT4X3A,
      fwdBaseCtorE MXMFLOAT4X3A.mk (pureRoutineE (fun c : XMFLOAT4X3A => c)) b
        = Except.ok (MXMFLOAT4X3A.mk b))
    ∧ (∀ a b c d e f g h i j k l : Nat,
      fwdBaseCtorE MXMFLOAT4X3A.mk
        (pureRoutineE (fun ((a, b, c, d, e, f, g, h, i, j, k, l) : Nat × Nat × Nat × Nat × Nat × Nat × Nat × Nat × Nat × Nat × Nat × Nat) => XMFLOAT4X3A.mk a b c d e f g h i j k l))
        (a, b, c, d, e, f, g, h, i, j, k, l)
        = Except.ok (MXMFLOAT4X3A.mk (XMFLOAT4X3A.mk a b c d e f g h i j k l)))
    ∧ (∀ p : Nat → Nat,
      fwdBaseCtorE MXMFLOAT4X3A.mk (pureRoutineE XMFLOAT4X3A.ofArray) p
        = Except.ok (MXMFLOAT4X3A.mk (XMFLOAT4X3A.ofArray p)))
    ∧ (∀ m : XMMATRIX,
      fwdStoreCtorE MXMFLOAT4X3A.mk (pureRoutineE XMStoreFloat4x3A) m
        = Except.ok (MXMFLOAT4X3A.ofMatrix m))
    ∧ (∀ s : MXMFLOAT4X3A,
      fwdLoadConvE MXMFLOAT4X3A.toXMFLOAT4X3A (pureRoutineE XMLoadFloat4x3A) s
        = Except.ok (MXMFLOAT4X3A.toMatrix s))
    ∧ (∀ (s : MXMFLOAT4X3A) (m : XMMATRIX),
      fwdStoreAssignE MXMFLOAT4X3A.mk (pureRoutineE XMStoreFloat4x3A) s m
        = Except.ok (MXMFLOAT4X3A.assign s m))
    ∧ (∀ b : XMFLOAT4X4,
      fwdBaseCtorE MXMFLOAT4X4.mk (pureRoutineE (fun c : XMFLOAT4X4 => c)) b
        = Except.ok (MXMFLOAT4X4.mk b))
    ∧ (∀ a b c d e f g h i j k l m n o p : Nat,
      fwdBaseCtorE MXMFLOAT4X4.mk
        (pureRoutineE (fun ((a, b, c, d, e, f, g, h, i, j, k, l, m, n, o, p) : Nat × Nat × Nat × Nat × Nat × Nat × Nat × Nat × Nat × Nat × Nat × Nat × Nat × Nat × Nat × Nat) => XMFLOAT4X4.mk a b c d e f g h i j k l m n o p))
        (a, b, c, d, e, f, g, h, i, j, k, l, m, n, o, p)
        = Except.ok (MXMFLOAT4X4.mk (XMFLOAT4X4.mk a b c d e f g h i j k l m n o p)))
    ∧ (∀ p : Nat → Nat,
      fwdBaseCtorE MXMFLOAT4X4.mk (pureRoutineE XMFLOAT4X4.ofArray) p
        = Except.ok (MXMFLOAT4X4.mk (XMFLOAT4X4.ofArray p)))
    ∧ (∀ m : XMMATRIX,
      fwdStoreCtorE MXMFLOAT4X4.mk (pureRoutineE XMStoreFloat4x4) m
        = Except.ok (MXMFLOAT4X4.ofMatrix m))
    ∧ (∀ s : MXMFLOAT4X4,
      fwdLoadConvE MXMFLOAT4X4.toXMFLOAT4X4 (pureRoutineE XMLoadFloat4x4) s
        = Except.ok (MXMFLOAT4X4.toMatrix s))
    ∧ (∀ (s : MXMFLOAT4X4) (m : XMMATRIX),
      fwdStoreAssignE MXMFLOAT4X4.mk (pureRoutineE XMStoreFloat4x4) s m
        = Except.ok (MXMFLOAT4X4.assign s m))
    ∧ (∀ b : XMFLOAT4X4A,
      fwdBaseCtorE MXMFLOAT4X4A.mk (pureRoutineE (fun c : XMFLOAT4X4A => c)) b
        = Except.ok (MXMFLOAT4X4A.mk b))
    ∧ (∀ a b c d e f g h i j k l m n o p : Nat,
      fwdBaseCtorE MXMFLOAT4X4A.mk
        (pureRoutineE (fun ((a, b, c, d, e, f, g, h, i, j, k, l, m, n, o, p) : Nat × Nat × Nat × Nat × Nat × Nat × Nat × Nat × Nat × Nat × Nat × Nat × Nat × Nat × Nat × Nat) => XMFLOAT4X4A.mk a b c d e f g h i j k l m n o p))
        (a, b, c, d, e, f, g, h, i, j, k, l, m, n, o, p)
        = Except.ok (MXMFLOAT4X4A.mk (XMFLOAT4X4A.mk a b c d e f g h i j k l m n o p)))
    ∧ (∀ p : Nat → Nat,
      fwdBaseCtorE MXMFLOAT4X4A.mk (pureRoutineE XMFLOAT4X4A.ofArray) p
        = Except.ok (MXMFLOAT4X4A.mk (XMFLOAT4X4A.ofArray p)))
    ∧ (∀ m : XMMATRIX,
      fwdStoreCtorE MXMFLOAT4X4A.mk (pureRoutineE XMStoreFloat4x4A) m
        = Except.ok (MXMFLOAT4X4A.ofMatrix m))
    ∧ (∀ s : MXMFLOAT4X4A,
      fwdLoadConvE MXMFLOAT4X4A.toXMFLOAT4X4A (pureRoutineE XMLoadFloat4x4A) s
        = Except.ok (MXMFLOAT4X4A.toMatrix s))
    ∧ (∀ (s : MXMFLOAT4X4A) (m : XMMATRIX),
      fwdStoreAssignE MXMFLOAT4X4A.mk (pureRoutineE XMStoreFloat4x4A) s m
        = Except.ok (MXMFLOAT4X4A.assign s m))
    ∧ (∀ mat : XMMATRIX,
      mxmMatrixAbsE (pureRoutineE XMVectorAbs) mat
        = Except.ok (MXMMatrixAbs mat)) := by
  refine ⟨fun E M V W mk st v => ?_, fun E M V W base ld s => rfl,
    fun E M V W mk st s v => ?_, fun E A M W mk bc a => ?_,
    fun E vA mat => ?_, ?_⟩
  · cases h : st v <;> simp [fwdStoreCtorE, h, exOk]
  · cases h : st v <;> simp [fwdStoreAssignE, h, exOk]
  · cases h : bc a <;> simp [fwdBaseCtorE, h, exOk]
  · cases h0 : vA mat.r0 <;> cases h1 : vA mat.r1 <;> cases h2 : vA mat.r2 <;>
      cases h3 : vA mat.r3 <;>
      simp [mxmMatrixAbsE, h0, h1, h2, h3, exOk]
  · repeat' apply And.intro
    all_goals (intros; rfl)

/-- Claim C7: converting a wrapper object to a SIMD value does not modify
the object (the conversion operator is `const`: its state-passing
translation returns the state unchanged), and assigning a SIMD value
modifies only the fields of the assigned-to object: any unrelated state is
untouched, and the written fields are determined by `v` alone. -/
theorem mxm_C7_conversion_frame :
    (∀ (M W R : Type) (conv : M → R) (s : M × W),
      (convCallSt conv s).1 = s ∧ (convCallSt conv s).2 = conv s.1)
    ∧ (∀ (M W V : Type) (asg : M → V → M) (s : M × W) (v : V),
      ((assignCallSt asg s v).1).2 = s.2
        ∧ ((assignCallSt asg s v).1).1 = asg s.1 v)
    ∧ (∀ (s t : MXMFLOAT2) (v : XMVECTOR),
      MXMFLOAT2.assign s v = MXMFLOAT2.assign t v)
    ∧ (∀ (s t : MXMFLOAT2A) (v : XMVECTOR),
      MXMFLOAT2A.assign s v = MXMFLOAT2A.assign t v)
    ∧ (∀ (s t : MXMINT2) (v : XMVECTOR),
      MXMINT2.assign s v = MXMINT2.assign t v)
    ∧ (∀ (s t : MXMUINT2) (v : XMVECTOR),
      MXMUINT2.assign s v = MXMUINT2.assign t v)
    ∧ (∀ (s t : MXMFLOAT3) (v : XMVECTOR),
      MXMFLOAT3.assign s v = MXMFLOAT3.assign t v)
    ∧ (∀ (s t : MXMFLOAT3A) (v : XMVECTOR),
      MXMFLOAT3A.assign s v = MXMFLOAT3A.assign t v)
    ∧ (∀ (s t : MXMINT3) (v : XMVECTOR),
      MXMINT3.assign s v = MXMINT3.assign t v)
    ∧ (∀ (s t : MXMUINT3) (v : XMVECTOR),
      MXMUINT3.assign s v = MXMUINT3.assign t v)
    ∧ (∀ (s t : MXMFLOAT4) (v : XMVECTOR),
      MXMFLOAT4.assign s v = MXMFLOAT4.assign t v)
    ∧ (∀ (s t : MXMFLOAT4A) (v : XMVECTOR),
      MXMFLOAT4A.assign s v = MXMFLOAT4A.assign t v)
    ∧ (∀ (s t : MXMINT4) (v : XMVECTOR),
      MXMINT4.assign s v = MXMINT4.assign t v)
    ∧ (∀ (s t : MXMUINT4) (v : XMVECTOR),
      MXMUINT4.assign s v = MXMUINT4.assign t v)
    ∧ (∀ (s t : MXMFLOAT3X3) (m : XMMATRIX),
      MXMFLOAT3X3.assign s m = MXMFLOAT3X3.assign t m)
    ∧ (∀ (s t : MXMFLOAT4X3) (m : XMMATRIX),
      MXMFLOAT4X3.assign s m = MXMFLOAT4X3.assign t m)
    ∧ (∀ (s t : MXMFLOAT4X3A) (m : XMMATRIX),
      MXMFLOAT4X3A.assign s m = MXMFLOAT4X3A.assign t m)
    ∧ (∀ (s t : MXMFLOAT4X4) (m : XMMATRIX),
      MXMFLOAT4X4.assign s m = MXMFLOAT4X4.assign t m)
    ∧ (∀ (s t : MXMFLOAT4X4A) (m : XMMATRIX),
      MXMFLOAT4X4A.assign s m = MXMFLOAT4X4A.assign t m) := by
  refine ⟨fun M W R conv s => ⟨rfl, rfl⟩,
    fun M W V asg s v => ⟨rfl, rfl⟩, ?_⟩
  repeat' apply And.intro
  all_goals (intros; rfl)

/-- Claim C8: for every input matrix `m`, `MXMMatrixAbs` returns a matrix
whose row `i` (for each `i` in `0..3`) is `XMVectorAbs` of row `i` of `m`,
and the call leaves the input matrix unchanged. -/
theorem mxm_C8_matrixAbs_rows :
    ∀ m : XMMATRIX,
      (MXMMatrixAbs m).r0 = XMVectorAbs m.r0
      ∧ (MXMMatrixAbs m).r1 = XMVectorAbs m.r1
      ∧ (MXMMatrixAbs m).r2 = XMVectorAbs m.r2
      ∧ (MXMMatrixAbs m).r3 = XMVectorAbs m.r3
      ∧ (MXMMatrixAbsCall m).1 = m :=
  fun m => ⟨rfl, rfl, rfl, rfl, rfl⟩

/-- Claim C9: for every wrapper type and every SIMD value `v`, constructing
a wrapper object from `v` produces exactly the same stored state as
assigning `v` to an object in any prior state (so in particular to a
default-constructed one): both invoke the same store routine. -/
theorem mxm_C9_ctor_equals_assign :
    (∀ (v : XMVECTOR) (s : MXMFLOAT2),
      MXMFLOAT2.ofVector v = MXMFLOAT2.assign s v)
    ∧ (∀ (v : XMVECTOR) (s : MXMFLOAT2A),
      MXMFLOAT2A.ofVector v = MXMFLOAT2A.assign s v)
    ∧ (∀ (v : XMVECTOR) (s : MXMINT2),
      MXMINT2.ofVector v = MXMINT2.assign s v)
    ∧ (∀ (v : XMVECTOR) (s : MXMUINT2),
      MXMUINT2.ofVector v = MXMUINT2.assign s v)
    ∧ (∀ (v : XMVECTOR) (s : MXMFLOAT3),
      MXMFLOAT3.ofVector v = MXMFLOAT3.assign s v)
    ∧ (∀ (v : XMVECTOR) (s : MXMFLOAT3A),
      MXMFLOAT3A.ofVector v = MXMFLOAT3A.assign s v)
    ∧ (∀ (v : XMVECTOR) (s : MXMINT3),
      MXMINT3.ofVector v = MXMINT3.assign s v)
    ∧ (∀ (v : XMVECTOR) (s : MXMUINT3),
      MXMUINT3.ofVector v = MXMUINT3.assign s v)
    ∧ (∀ (v : XMVECTOR) (s : MXMFLOAT4),
      MXMFLOAT4.ofVector v = MXMFLOAT4.assign s v)
    ∧ (∀ (v : XMVECTOR) (s : MXMFLOAT4A),
      MXMFLOAT4A.ofVector v = MXMFLOAT4A.assign s v)
    ∧ (∀ (v : XMVECTOR) (s : MXMINT4),
      MXMINT4.ofVector v = MXMINT4.assign s v)
    ∧ (∀ (v : XMVECTOR) (s : MXMUINT4),
      MXMUINT4.ofVector v = MXMUINT4.assign s v)
    ∧ (∀ (m : XMMATRIX) (s : MXMFLOAT3X3),
      MXMFLOAT3X3.ofMatrix m = MXMFLOAT3X3.assign s m)
    ∧ (∀ (m : XMMATRIX) (s : MXMFLOAT4X3),
      MXMFLOAT4X3.ofMatrix m = MXMFLOAT4X3.assign s m)
    ∧ (∀ (m : XMMATRIX) (s : MXMFLOAT4X3A),
      MXMFLOAT4X3A.ofMatrix m = MXMFLOAT4X3A.assign s m)
    ∧ (∀ (m : XMMATRIX) (s : MXMFLOAT4X4),
      MXMFLOAT4X4.ofMatrix m = MXMFLOAT4X4.assign s m)
    ∧ (∀ (m : XMMATRIX) (s : MXMFLOAT4X4A),
      MXMFLOAT4X4A.ofMatrix m = MXMFLOAT4X4A.assign s m) := by
  repeat' apply And.intro
  all_goals (intros; rfl)

/-- Claim C10: for every wrapper type, the SIMD-to-memory assignment
operator returns a reference to the assigned-to object itself: the value
observed through the returned reference is exactly the just-updated
object. -/
theorem mxm_C10_assignment_returns_this :
    (∀ (s : MXMFLOAT2) (v : XMVECTOR),
      (MXMFLOAT2.assignRet s v).2 = (MXMFLOAT2.assignRet s v).1)
    ∧ (∀ (s : MXMFLOAT2) (v : XMVECTOR),
      (MXMFLOAT2.assignRet s v).1 = MXMFLOAT2.assign s v)
    ∧ (∀ (s : MXMFLOAT2A) (v : XMVECTOR),
      (MXMFLOAT2A.assignRet s v).2 = (MXMFLOAT2A.assignRet s v).1)
    ∧ (∀ (s : MXMFLOAT2A) (v : XMVECTOR),
      (MXMFLOAT2A.assignRet s v).1 = MXMFLOAT2A.assign s v)
    ∧ (∀ (s : MXMINT2) (v : XMVECTOR),
      (MXMINT2.assignRet s v).2 = (MXMINT2.assignRet s v).1)
    ∧ (∀ (s : MXMINT2) (v : XMVECTOR),
      (MXMINT2.assignRet s v).1 = MXMINT2.assign s v)
    ∧ (∀ (s : MXMUINT2) (v : XMVECTOR),
      (MXMUINT2.assignRet s v).2 = (MXMUINT2.assignRet s v).1)
    ∧ (∀ (s : MXMUINT2) (v : XMVECTOR),
      (MXMUINT2.assignRet s v).1 = MXMUINT2.assign s v)
    ∧ (∀ (s : MXMFLOAT3) (v : XMVECTOR),
      (MXMFLOAT3.assignRet s v).2 = (MXMFLOAT3.assignRet s v).1)
    ∧ (∀ (s : MXMFLOAT3) (v : XMVECTOR),
      (MXMFLOAT3.assignRet s v).1 = MXMFLOAT3.assign s v)
    ∧ (∀ (s : MXMFLOAT3A) (v : XMVECTOR),
      (MXMFLOAT3A.assignRet s v).2 = (MXMFLOAT3A.assignRet s v).1)
    ∧ (∀ (s : MXMFLOAT3A) (v : XMVECTOR),
      (MXMFLOAT3A.assignRet s v).1 = MXMFLOAT3A.assign s v)
    ∧ (∀ (s : MXMINT3) (v : XMVECTOR),
      (MXMINT3.assignRet s v).2 = (MXMINT3.assignRet s v).1)
    ∧ (∀ (s : MXMINT3) (v : XMVECTOR),
      (MXMINT3.assignRet s v).1 = MXMINT3.assign s v)
    ∧ (∀ (s : MXMUINT3) (v : XMVECTOR),
      (MXMUINT3.assignRet s v).2 = (MXMUINT3.assignRet s v).1)
    ∧ (∀ (s : MXMUINT3) (v : XMVECTOR),
      (MXMUINT3.assignRet s v).1 = MXMUINT3.assign s v)
    ∧ (∀ (s : MXMFLOAT4) (v : XMVECTOR),
      (MXMFLOAT4.assignRet s v).2 = (MXMFLOAT4.assignRet s v).1)
    ∧ (∀ (s : MXMFLOAT4) (v : XMVECTOR),
      (MXMFLOAT4.assignRet s v).1 = MXMFLOAT4.assign s v)
    ∧ (∀ (s : MXMFLOAT4A) (v : XMVECTOR),
      (MXMFLOAT4A.assignRet s v).2 = (MXMFLOAT4A.assignRet s v).1)
    ∧ (∀ (s : MXMFLOAT4A) (v : XMVECTOR),
      (MXMFLOAT4A.assignRet s v).1 = MXMFLOAT4A.assign s v)
    ∧ (∀ (s : MXMINT4) (v : XMVECTOR),
      (MXMINT4.assignRet s v).2 = (MXMINT4.assignRet s v).1)
    ∧ (∀ (s : MXMINT4) (v : XMVECTOR),
      (MXMINT4.assignRet s v).1 = MXMINT4.assign s v)
    ∧ (∀ (s : MXMUINT4) (v : XMVECTOR),
      (MXMUINT4.assignRet s v).2 = (MXMUINT4.assignRet s v).1)
    ∧ (∀ (s : MXMUINT4) (v : XMVECTOR),
      (MXMUINT4.assignRet s v).1 = MXMUINT4.assign s v)
    ∧ (∀ (s : MXMFLOAT3X3) (m : XMMATRIX),
      (MXMFLOAT3X3.assignRet s m).2 = (MXMFLOAT3X3.assignRet s m).1)
    ∧ (∀ (s : MXMFLOAT3X3) (m : XMMATRIX),
      (MXMFLOAT3X3.assignRet s m).1 = MXMFLOAT3X3.assign s m)
    ∧ (∀ (s : MXMFLOAT4X3) (m : XMMATRIX),
      (MXMFLOAT4X3.assignRet s m).2 = (MXMFLOAT4X3.assignRet s m).1)
    ∧ (∀ (s : MXMFLOAT4X3) (m : XMMATRIX),
      (MXMFLOAT4X3.assignRet s m).1 = MXMFLOAT4X3.assign s m)
    ∧ (∀ (s : MXMFLOAT4X3A) (m : XMMATRIX),
      (MXMFLOAT4X3A.assignRet s m).2 = (MXMFLOAT4X3A.assignRet s m).1)
    ∧ (∀ (s : MXMFLOAT4X3A) (m : XMMATRIX),
      (MXMFLOAT4X3A.assignRet s m).1 = MXMFLOAT4X3A.assign s m)
    ∧ (∀ (s : MXMFLOAT4X4) (m : XMMATRIX),
      (MXMFLOAT4X4.assignRet s m).2 = (MXMFLOAT4X4.assignRet s m).1)
    ∧ (∀ (s : MXMFLOAT4X4) (m : XMMATRIX),
      (MXMFLOAT4X4.assignRet s m).1 = MXMFLOAT4X4.assign s m)
    ∧ (∀ (s : MXMFLOAT4X4A) (m : XMMATRIX),
      (MXMFLOAT4X4A.assignRet s m).2 = (MXMFLOAT4X4A.assignRet s m).1)
    ∧ (∀ (s : MXMFLOAT4X4A) (m : XMMATRIX),
      (MXMFLOAT4X4A.assignRet s m).1 = MXMFLOAT4X4A.assign s m) := by
  repeat' apply And.intro
  all_goals (intros; rfl)

end DXME
